import Mathlib

/-!
# Smoke-Simulation: the voxel texture store and its step pipeline

Shallow embedding of `src/src/voxeltexture.hpp` (class `VoxelTexture`) together
with the part of the OpenGL state machine its methods drive.

Conventions of the embedding

* `float` values are idealised as rationals (`Val`).  All seeded constants
  (`0.0f`, `1.0f`, `10.0f`) are exactly representable; `-0.0f` and `0.0f`
  compare equal in C++ and are the same rational.
* `GLuint` arithmetic is unsigned 32-bit: every `+` and `*` of the source is
  taken modulo `2^32` (`uadd`, `umul`).
* `std::vector<float>` is a `List Val`; `operator[]` outside the bounds is
  undefined behaviour and is modelled as failure (`none`).
* `for (int i = 0; i < n; i++)` is `forLoop n`: the counter runs 0, 1, ..., n-1.
-/

namespace SmokeSim

/-! ## Values and machine arithmetic -/

/-- Idealised `float`. -/
abbrev Val := ℚ

/-- Unsigned 32-bit addition (`GLuint + GLuint`). -/
def uadd (a b : Nat) : Nat := (a + b) % 2 ^ 32

/-- Unsigned 32-bit multiplication (`GLuint * GLuint`). -/
def umul (a b : Nat) : Nat := (a * b) % 2 ^ 32

/-! ## Loops -/

/-- Counter loop in a failing setting: runs `body i` for `i = start, start+1, ...`,
`fuel` times, stopping at the first failure. -/
def loopFrom {σ : Type} (body : Nat → σ → Option σ) : Nat → Nat → σ → Option σ
  | _, 0, s => some s
  | start, fuel + 1, s =>
    match body start s with
    | none => none
    | some s' => loopFrom body (start + 1) fuel s'

/-- The loop `for (int i = 0; i < n; i++) body`. -/
def forLoop {σ : Type} (n : Nat) (body : Nat → σ → Option σ) (s : σ) : Option σ :=
  loopFrom body 0 n s

/-- The loop `for (int i = 0; i < n; i++) body` for a body that cannot fail. -/
def forN {σ : Type} (body : Nat → σ → σ) : Nat → Nat → σ → σ
  | _, 0, s => s
  | start, fuel + 1, s => forN body (start + 1) fuel (body start s)

/-! ## The object -/

/-- Fields of `class VoxelTexture` (voxeltexture.hpp:9-18,108). -/
structure VoxelTexture where
  previousTextureID : Nat
  currentTextureID : Nat
  shaderID : Nat
  diffuseShaderID : Nat
  advectShaderID : Nat
  dimXZ : Nat
  dimY : Nat
  data : List Val
  swap : Bool

/-- Constructor `VoxelTexture()` (voxeltexture.hpp:21-24): all identifiers are
value-initialised to 0, the lattice is 128 x 128 x 128. -/
def VoxelTexture.new : VoxelTexture :=
  { previousTextureID := 0, currentTextureID := 0, shaderID := 0,
    diffuseShaderID := 0, advectShaderID := 0,
    dimXZ := 128, dimY := 128, data := [], swap := false }

/-! ## Seeding (`generate_data`) -/

/-- The expression `dimXZ * dimY * dimXZ * 4` (voxeltexture.hpp:35-36). -/
def allocSize (dimXZ dimY : Nat) : Nat :=
  umul (umul (umul dimXZ dimY) dimXZ) 4

/-- The expression `i + j * dimXZ + k * dimXZ * dimY` (voxeltexture.hpp:43). -/
def densityIndex (dimXZ dimY i j k : Nat) : Nat :=
  uadd (uadd i (umul j dimXZ)) (umul (umul k dimXZ) dimY)

/-- The expression `i + j * dimXZ + k * dimXZ * dimY + c * dimXZ * dimY * dimXZ`
(voxeltexture.hpp:46-48, with `c` = 1, 2, 3). -/
def channelIndex (dimXZ dimY c i j k : Nat) : Nat :=
  uadd (densityIndex dimXZ dimY i j k) (umul (umul (umul c dimXZ) dimY) dimXZ)

/-- The value `val` of voxeltexture.hpp:41. -/
def seedDensity (i j k : Nat) : Val :=
  if 32 ≤ i ∧ i < 96 ∧ 32 ≤ j ∧ j < 96 ∧ 32 ≤ k ∧ k < 96 then 1 else 0

/-- The value `val_vel` of voxeltexture.hpp:45. -/
def seedVelocity (i j k : Nat) : Val :=
  if 40 ≤ i ∧ i < 88 ∧ 40 ≤ j ∧ j < 88 ∧ 40 ≤ k ∧ k < 88 then 10 else 0

/-- The assignment `data[idx] = v`; an index outside the vector is undefined
behaviour. -/
def store (data : List Val) (idx : Nat) (v : Val) : Option (List Val) :=
  if idx < data.length then some (data.set idx v) else none

/-- Body of the innermost loop of `generate_data` (voxeltexture.hpp:41-48). -/
def writeCell (dimXZ dimY : Nat) (i j k : Nat) (data : List Val) : Option (List Val) :=
  match store data (densityIndex dimXZ dimY i j k) (seedDensity i j k) with
  | none => none
  | some d0 =>
    match store d0 (channelIndex dimXZ dimY 1 i j k) (seedVelocity i j k) with
    | none => none
    | some d1 =>
      match store d1 (channelIndex dimXZ dimY 2 i j k) (-(seedVelocity i j k)) with
      | none => none
      | some d2 => store d2 (channelIndex dimXZ dimY 3 i j k) (seedVelocity i j k)

/-- The three nested loops of `generate_data` (voxeltexture.hpp:38-51). -/
def seedLoops (dimXZ dimY : Nat) (data : List Val) : Option (List Val) :=
  forLoop dimXZ (fun i d =>
    forLoop dimY (fun j d =>
      forLoop dimXZ (fun k d => writeCell dimXZ dimY i j k d) d) d) data

/-- Method `generate_data` (voxeltexture.hpp:33-53): `resize` and `assign` leave a
vector of `dimXZ * dimY * dimXZ * 4` zeros, which the loops then fill. -/
def generate_data (vt : VoxelTexture) : Option VoxelTexture :=
  match seedLoops vt.dimXZ vt.dimY (List.replicate (allocSize vt.dimXZ vt.dimY) 0) with
  | none => none
  | some d => some { vt with data := d }

/-! ## Index arithmetic used in the statements -/

/-- Number of cells `N = sizeX * sizeY * sizeZ` with `sizeX = sizeZ = dimXZ`. -/
def cellCount (dimXZ dimY : Nat) : Nat := dimXZ * dimY * dimXZ

/-- The index map `(i,j,k,c) -> i + j*sizeX + k*sizeX*sizeY + c*N` over the
natural numbers (no wrap-around). -/
def flatIndex (dimXZ dimY c i j k : Nat) : Nat :=
  i + j * dimXZ + k * dimXZ * dimY + c * cellCount dimXZ dimY

/-- Value that `generate_data` stores for cell `(i,j,k)` in channel `c`. -/
def seedValue (c i j k : Nat) : Val :=
  if c = 0 then seedDensity i j k
  else if c = 2 then -(seedVelocity i j k)
  else seedVelocity i j k

/-- Loop invariant of `seedLoops`: the vector has its full size and every cell
selected by `P` already holds its seeded value in all four channels. -/
def SeededOn (dimXZ dimY : Nat) (P : Nat → Nat → Nat → Prop) (d : List Val) : Prop :=
  d.length = 4 * cellCount dimXZ dimY ∧
  ∀ i j k c, i < dimXZ → j < dimY → k < dimXZ → c < 4 → P i j k →
    d[flatIndex dimXZ dimY c i j k]? = some (seedValue c i j k)

/-! ## The OpenGL state driven by the class

Only the part of the GL state machine that `init_textures`, `simulationStep` and
`getTextureID` touch is represented: program objects with their uniforms, 3D
texture objects with their level-0 image, the texture and image unit bindings,
the program in use, and the chronological list of the calls made. -/

/-- A `glm::vec3`. -/
structure Vec3 where
  x : Val
  y : Val
  z : Val

/-- Value given to a uniform variable by `setUniform`. -/
inductive UVal where
  | float (v : Val)
  | int (n : Int)
  deriving DecidableEq

/-- Values of the uniform variables of one program, by name. -/
abbrev Uniforms := String → Option UVal

/-- Reads a `float` uniform; a uniform never set has the GL default 0. -/
def Uniforms.getFloat (u : Uniforms) (name : String) : Val :=
  match u name with
  | some (UVal.float v) => v
  | _ => 0

/-- The three shader sources loaded by `init_textures` (voxeltexture.hpp:65-67):
`compute.glsl`, `compute/diffuse.glsl`, `compute/advect.glsl`. -/
inductive ShaderFile where
  | compute
  | diffuse
  | advect
  deriving DecidableEq

/-- Level-0 image of a 3D texture object of internal format `GL_R32F`: one float
per texel, texel `(x,y,z)` at position `x + y*width + z*width*height`.
`texels = none` is an image whose storage was allocated without data
(`glTexImage3D` with a null pointer): its contents are unspecified. -/
structure TexImage where
  width : Nat
  height : Nat
  depth : Nat
  texels : Option (List Val)

/-- A program object. -/
structure Program where
  shader : Option ShaderFile
  linked : Bool
  uniforms : Uniforms

/-- The GL calls made by the class, with the arguments that matter here. -/
inductive GLCall where
  | deleteProgram (program : Nat)
  | createProgram (result : Nat)
  | loadShader (program : Nat) (file : ShaderFile)
  | linkProgram (program : Nat)
  | genTextures (result : Nat)
  | texParameterBorder2D
  | texParameter3D
  | bindTexture3D (texture : Nat)
  | texImage3D (width height depth : Nat) (withData : Bool)
  | useProgram (program : Nat)
  | setUniform (program : Nat) (name : String) (value : UVal)
  | activeTexture (unit : Nat)
  | bindImageTexture (unit texture : Nat)
  | dispatchCompute (x y z : Nat)
  | memoryBarrier
  deriving DecidableEq

/-- The GL context. -/
structure GLState where
  lastProgram : Nat
  lastTexture : Nat
  programs : Nat → Option Program
  textures : Nat → Option TexImage
  activeUnit : Nat
  boundTex3D : Nat → Nat
  imageUnit : Nat → Nat
  currentProgram : Nat
  calls : List GLCall

/-- A context in which nothing has been created or bound yet. -/
def GLState.initial : GLState :=
  { lastProgram := 0, lastTexture := 0, programs := fun _ => none, textures := fun _ => none,
    activeUnit := 0, boundTex3D := fun _ => 0, imageUnit := fun _ => 0, currentProgram := 0,
    calls := [] }

/-- Changes the program object named `p`, if there is one. -/
def modifyProgram (p : Nat) (f : Program → Program) (programs : Nat → Option Program) :
    Nat → Option Program :=
  fun q => if q = p then (programs q).map f else programs q

/-- Appends a call to the chronological record. -/
def GLState.log (gl : GLState) (c : GLCall) : GLState := { gl with calls := gl.calls ++ [c] }

/-- Call `glDeleteProgram(p)`. -/
def glDeleteProgram (p : Nat) (gl : GLState) : GLState :=
  { gl.log (GLCall.deleteProgram p) with programs := Function.update gl.programs p none }

/-- Call `glCreateProgram()`: returns an unused non-zero name for an empty program. -/
def glCreateProgram (gl : GLState) : Nat × GLState :=
  (gl.lastProgram + 1,
    { gl.log (GLCall.createProgram (gl.lastProgram + 1)) with
      lastProgram := gl.lastProgram + 1
      programs := Function.update gl.programs (gl.lastProgram + 1)
        (some { shader := none, linked := false, uniforms := fun _ => none }) })

/-- Modelled from the spec: the helper `loadShader(program, GL_COMPUTE_SHADER, file)`
is declared in `shader.hpp`, which is not among the sources.  The spec (section 2)
has each pass run its own compute kernel; the helper is taken to compile the file
and attach it to the program. -/
def loadShader (p : Nat) (file : ShaderFile) (gl : GLState) : GLState :=
  { gl.log (GLCall.loadShader p file) with
    programs := modifyProgram p (fun prog => { prog with shader := some file }) gl.programs }

/-- Call `glLinkProgram(p)`. -/
def glLinkProgram (p : Nat) (gl : GLState) : GLState :=
  { gl.log (GLCall.linkProgram p) with
    programs := modifyProgram p (fun prog => { prog with linked := true }) gl.programs }

/-- Call `glGenTextures(1, &id)`: returns an unused non-zero texture name. -/
def glGenTextures (gl : GLState) : Nat × GLState :=
  (gl.lastTexture + 1,
    { gl.log (GLCall.genTextures (gl.lastTexture + 1)) with lastTexture := gl.lastTexture + 1 })

/-- Call `glTexParameterfv(GL_TEXTURE_2D, GL_TEXTURE_BORDER_COLOR, ...)`: a sampling
parameter of the 2D target; no effect on the state represented here. -/
def glTexParameterBorder2D (gl : GLState) : GLState := gl.log GLCall.texParameterBorder2D

/-- Call `glTexParameteri(GL_TEXTURE_3D, ...)`: a filter or wrap parameter; no effect
on the state represented here. -/
def glTexParameter3D (gl : GLState) : GLState := gl.log GLCall.texParameter3D

/-- Call `glBindTexture(GL_TEXTURE_3D, t)`: binds on the active texture unit. -/
def glBindTexture3D (t : Nat) (gl : GLState) : GLState :=
  { gl.log (GLCall.bindTexture3D t) with
    boundTex3D := Function.update gl.boundTex3D gl.activeUnit t }

/-- Call `glTexImage3D(GL_TEXTURE_3D, 0, GL_R32F, w, h, d, 0, GL_RED, GL_FLOAT, data)`:
replaces the image of the texture bound on the active unit.  With a data pointer
the first `w*h*d` floats are read (fewer available floats is an out-of-bounds
read); with a null pointer the contents stay unspecified. -/
def glTexImage3D (w h d : Nat) (data : Option (List Val)) (gl : GLState) : Option GLState :=
  match data with
  | none =>
    some { gl.log (GLCall.texImage3D w h d false) with
      textures := Function.update gl.textures (gl.boundTex3D gl.activeUnit)
        (some { width := w, height := h, depth := d, texels := none }) }
  | some l =>
    if l.length < w * h * d then none
    else
      some { gl.log (GLCall.texImage3D w h d true) with
        textures := Function.update gl.textures (gl.boundTex3D gl.activeUnit)
          (some { width := w, height := h, depth := d, texels := some (l.take (w * h * d)) }) }

/-- Call `glUseProgram(p)`. -/
def glUseProgram (p : Nat) (gl : GLState) : GLState :=
  { gl.log (GLCall.useProgram p) with currentProgram := p }

/-- Modelled from the spec: the helper `setUniform(program, name, value)` is declared
in `shader.hpp`, which is not among the sources.  The spec (section 4.2) has the
step hand fixed rates and a fixed time step to the kernels; the helper is taken to
set the named uniform of the given program. -/
def setUniform (p : Nat) (name : String) (v : UVal) (gl : GLState) : GLState :=
  { gl.log (GLCall.setUniform p name v) with
    programs := modifyProgram p
      (fun prog => { prog with uniforms := Function.update prog.uniforms name (some v) })
      gl.programs }

/-- Call `glActiveTexture(GL_TEXTURE0 + unit)`. -/
def glActiveTexture (unit : Nat) (gl : GLState) : GLState :=
  { gl.log (GLCall.activeTexture unit) with activeUnit := unit }

/-- Call `glBindImageTexture(unit, t, 0, layered, 0, GL_READ_WRITE, GL_R32F)`. -/
def glBindImageTexture (unit t : Nat) (gl : GLState) : GLState :=
  { gl.log (GLCall.bindImageTexture unit t) with
    imageUnit := Function.update gl.imageUnit unit t }

/-- Call `glMemoryBarrier(GL_SHADER_IMAGE_ACCESS_BARRIER_BIT)`: an ordering point;
in this sequential semantics every dispatch has completed when it returns, so
the barrier only appears in the record of calls. -/
def glMemoryBarrier (gl : GLState) : GLState := gl.log GLCall.memoryBarrier

/-! ## Compute kernels

The shader sources are not among the sources.  A kernel is the value that the
invocation with global id `(x,y,z)` stores into its own texel of the image bound
to image unit 0, as a function of the uniforms of the program, of the textures
bound to the texture units, and of the image as it stood when the dispatch began. -/

/-- Semantics of one compute shader. -/
abbrev Kernel :=
  Uniforms → (Nat → Option TexImage) → (w h d : Nat) → List Val → Nat → Nat → Nat → Val

/-- Modelled from the spec: the work-group shape is declared in the shader sources,
which are not among the sources; spec section 5 gives the group shape 8 x 8 x 8. -/
def groupSize : Nat := 8

/-- Reads cell `(x,y,z)` of channel `c` of a channel-major field; a position outside
the lattice reads as 0. -/
def fieldAt (sx sy sz : Nat) (f : List Val) (c : Nat) (x y z : Int) : Val :=
  if 0 ≤ x ∧ x < sx ∧ 0 ≤ y ∧ y < sy ∧ 0 ≤ z ∧ z < sz then
    f.getD (x.toNat + y.toNat * sx + z.toNat * sx * sy + c * (sx * sy * sz)) 0
  else 0

/-- Modelled from the spec: the diffusion shader `compute/diffuse.glsl` is not among
the sources.  Spec section 4.2 step 1: every cell is updated from its current value
and its 6-connected face neighbours by a Jacobi-style relaxation whose rate is
`mu_density` for the density channel and `mu_velocity` for the velocity channels,
the rate acting as a multiplier; neighbours outside the lattice read as zero. -/
def jacobiCell (sx sy sz : Nat) (muDensity muVelocity dt : Val) (f : List Val)
    (c x y z : Nat) : Val :=
  let a := (if c = 0 then muDensity else muVelocity) * dt
  (fieldAt sx sy sz f c x y z +
    a * (fieldAt sx sy sz f c ((x : Int) - 1) y z + fieldAt sx sy sz f c ((x : Int) + 1) y z +
         fieldAt sx sy sz f c x ((y : Int) - 1) z + fieldAt sx sy sz f c x ((y : Int) + 1) z +
         fieldAt sx sy sz f c x y ((z : Int) - 1) + fieldAt sx sy sz f c x y ((z : Int) + 1)))
    / (1 + 6 * a)

/-- Modelled from the spec: one diffusion iteration over a whole channel-major field
(spec section 3 and section 4.2 step 1): every cell of every channel is replaced by its
relaxed value, all reads seeing the field as it stood at the start of the iteration. -/
def diffuseField (sx sy sz : Nat) (muDensity muVelocity dt : Val) (f : List Val) : List Val :=
  (List.range f.length).map (fun idx =>
    let n := sx * sy * sz
    let cell := idx % n
    let x := cell % sx
    let y := cell / sx % sy
    let z := cell / (sx * sy)
    if x < sx ∧ y < sy ∧ z < sz then jacobiCell sx sy sz muDensity muVelocity dt f (idx / n) x y z
    else f.getD idx 0)

/-- Modelled from the spec: the kernel of `compute/diffuse.glsl` on the bound
single-channel image: the relaxation of `jacobiCell` with the rates and the time
step read from the uniforms `mu_density`, `mu_velocity` and `dt`. -/
def diffuseKernel : Kernel := fun u _ w h d t x y z =>
  jacobiCell w h d (u.getFloat "mu_density") (u.getFloat "mu_velocity") (u.getFloat "dt") t 0 x y z

/-- Kernel of a loaded shader: the diffusion shader is the relaxation described by
the spec, the other shaders are given by `K`. -/
def kernelOf (K : ShaderFile → Kernel) : ShaderFile → Kernel
  | ShaderFile.diffuse => diffuseKernel
  | f => K f

/-- Effect of one dispatch on the bound image: the texel of every invocation that
lies inside the image is replaced by the value the kernel computes from the image
as it stood before the dispatch; the other texels are kept. -/
def runKernel (k : Kernel) (u : Uniforms) (samplers : Nat → Option TexImage)
    (gx gy gz : Nat) (img : TexImage) : TexImage :=
  match img.texels with
  | none => img
  | some t =>
    { img with
      texels := some ((List.range t.length).map (fun idx =>
        let x := idx % img.width
        let y := idx / img.width % img.height
        let z := idx / (img.width * img.height)
        if x < img.width ∧ y < img.height ∧ z < img.depth ∧
            x < groupSize * gx ∧ y < groupSize * gy ∧ z < groupSize * gz then
          k u samplers img.width img.height img.depth t x y z
        else t.getD idx 0)) }

/-- Call `glDispatchCompute(gx, gy, gz)`: runs the kernel of the program in use on
the image bound to image unit 0.  Without a linked program in use, or without
an image bound, nothing is written. -/
def glDispatchCompute (K : ShaderFile → Kernel) (gx gy gz : Nat) (gl : GLState) : GLState :=
  { gl.log (GLCall.dispatchCompute gx gy gz) with
    textures :=
      match gl.programs gl.currentProgram with
      | some prog =>
        match prog.shader with
        | some file =>
          if prog.linked = true ∧ gl.imageUnit 0 ≠ 0 then
            match gl.textures (gl.imageUnit 0) with
            | some img =>
              Function.update gl.textures (gl.imageUnit 0)
                (some (runKernel (kernelOf K file) prog.uniforms
                  (fun unit => gl.textures (gl.boundTex3D unit)) gx gy gz img))
            | none => gl.textures
          else gl.textures
        | none => gl.textures
      | none => gl.textures }

/-! ## The methods of the class -/

/-- Lines 58-71 of `init_textures`: the old `shaderID` and `diffuseShaderID`
programs are deleted when non-zero, three programs are created, each gets its
shader file and is linked. -/
def initPrograms (vt : VoxelTexture) (gl : GLState) : VoxelTexture × GLState :=
  let gl1 : GLState := if vt.shaderID ≠ 0 then glDeleteProgram vt.shaderID gl else gl
  let gl2 : GLState :=
    if vt.diffuseShaderID ≠ 0 then glDeleteProgram vt.diffuseShaderID gl1 else gl1
  let r1 : Nat × GLState := glCreateProgram gl2
  let r2 : Nat × GLState := glCreateProgram r1.2
  let r3 : Nat × GLState := glCreateProgram r2.2
  let gl3 : GLState := loadShader r1.1 ShaderFile.compute r3.2
  let gl4 : GLState := loadShader r2.1 ShaderFile.diffuse gl3
  let gl5 : GLState := loadShader r3.1 ShaderFile.advect gl4
  let gl6 : GLState := glLinkProgram r1.1 gl5
  let gl7 : GLState := glLinkProgram r2.1 gl6
  let gl8 : GLState := glLinkProgram r3.1 gl7
  ({ vt with shaderID := r1.1, diffuseShaderID := r2.1, advectShaderID := r3.1 }, gl8)

/-- Lines 73-87 of `init_textures`: the previous texture gets a name if it has
none, is bound, and receives the image read from `data.data()`. -/
def initPreviousTexture (vt : VoxelTexture) (gl : GLState) : Option (VoxelTexture × GLState) :=
  let r : Nat × GLState :=
    if vt.previousTextureID = 0 then glGenTextures gl else (vt.previousTextureID, gl)
  let gl1 : GLState := glTexParameterBorder2D r.2
  let gl2 : GLState := glBindTexture3D r.1 gl1
  let gl3 : GLState := glTexParameter3D (glTexParameter3D (glTexParameter3D (glTexParameter3D gl2)))
  match glTexImage3D vt.dimXZ vt.dimY vt.dimXZ (some vt.data) gl3 with
  | none => none
  | some gl4 => some ({ vt with previousTextureID := r.1 }, gl4)

/-- Lines 89-103 of `init_textures`: the current texture gets a name if it has
none, is bound, and receives an image without data (`nullptr`). -/
def initCurrentTexture (vt : VoxelTexture) (gl : GLState) : Option (VoxelTexture × GLState) :=
  let r : Nat × GLState :=
    if vt.currentTextureID = 0 then glGenTextures gl else (vt.currentTextureID, gl)
  let gl1 : GLState := glTexParameterBorder2D r.2
  let gl2 : GLState := glBindTexture3D r.1 gl1
  let gl3 : GLState := glTexParameter3D (glTexParameter3D (glTexParameter3D (glTexParameter3D gl2)))
  match glTexImage3D vt.dimXZ vt.dimY vt.dimXZ none gl3 with
  | none => none
  | some gl4 => some ({ vt with currentTextureID := r.1 }, gl4)

/-- Method `init_textures` (voxeltexture.hpp:55-106). -/
def init_textures (vt : VoxelTexture) (gl : GLState) : Option (VoxelTexture × GLState) :=
  match generate_data vt with
  | none => none
  | some vt1 =>
    match initPreviousTexture (initPrograms vt1 gl).1 (initPrograms vt1 gl).2 with
    | none => none
    | some s2 =>
      match initCurrentTexture s2.1 s2.2 with
      | none => none
      | some s3 => some ({ s3.1 with swap := false }, s3.2)

/-- The local `previousTextureID` of `simulationStep` (voxeltexture.hpp:114):
`swap ? this->currentTextureID : this->previousTextureID`. -/
def stepTarget (vt : VoxelTexture) : Nat :=
  if vt.swap then vt.currentTextureID else vt.previousTextureID

/-- The local `currentTextureID` of `simulationStep` (voxeltexture.hpp:113):
`swap ? previousTextureID : this->currentTextureID`; it is not used afterwards. -/
def stepOther (vt : VoxelTexture) : Nat :=
  if vt.swap then vt.previousTextureID else vt.currentTextureID

/-- First part of `simulationStep` (voxeltexture.hpp:117-134): the diffusion program
is put in use, its uniforms are set, the target is bound as texture and as image,
and 15 dispatches are issued, each followed by a barrier. -/
def diffusionPass (K : ShaderFile → Kernel) (vt : VoxelTexture) (dt : Val) (gl : GLState) :
    GLState :=
  let gl := glUseProgram vt.diffuseShaderID gl
  let gl := setUniform vt.diffuseShaderID "dt" (UVal.float dt) gl
  let gl := setUniform vt.diffuseShaderID "mu_density" (UVal.float 0) gl
  let gl := setUniform vt.diffuseShaderID "mu_velocity" (UVal.float 0) gl
  let gl := setUniform vt.diffuseShaderID "u_inputImg" (UVal.int 0) gl
  let gl := glActiveTexture 0 gl
  let gl := glBindTexture3D (stepTarget vt) gl
  let gl := glBindImageTexture 0 (stepTarget vt) gl
  forN (fun _ gl =>
    glMemoryBarrier (glDispatchCompute K (vt.dimXZ / 8) (vt.dimY / 8) (vt.dimXZ / 8) gl)) 0 15 gl

/-- Second part of `simulationStep` (voxeltexture.hpp:136-148): the advection
program is put in use with `dt = 0.01f`, one dispatch and one barrier are issued,
and the bindings are released. -/
def advectionPass (K : ShaderFile → Kernel) (vt : VoxelTexture) (gl : GLState) : GLState :=
  let gl := glUseProgram vt.advectShaderID gl
  let gl := setUniform vt.advectShaderID "dt" (UVal.float (1 / 100)) gl
  let gl := setUniform vt.advectShaderID "u_inputImg" (UVal.int 0) gl
  let gl := setUniform vt.advectShaderID "u_velocity" (UVal.int 0) gl
  let gl := glDispatchCompute K (vt.dimXZ / 8) (vt.dimY / 8) (vt.dimXZ / 8) gl
  let gl := glMemoryBarrier gl
  let gl := glBindImageTexture 0 0 gl
  let gl := glBindTexture3D 0 gl
  glUseProgram 0 gl

/-- Method `simulationStep(targetSize, targetOffest, dt)` (voxeltexture.hpp:110-164).
The toggle `swap = !swap` is commented out in the source, so the object is
returned as it was. -/
def simulationStep (K : ShaderFile → Kernel) (vt : VoxelTexture)
    (_targetSize _targetOffest : Vec3) (dt : Val) (gl : GLState) : VoxelTexture × GLState :=
  (vt, advectionPass K vt (diffusionPass K vt dt gl))

/-- Method `getTextureID` (voxeltexture.hpp:166-169). -/
def getTextureID (vt : VoxelTexture) : Nat := vt.previousTextureID

/-! ## Runs of the object -/

/-- The two operations a caller performs on the object. -/
inductive Op where
  | init
  | step (targetSize targetOffest : Vec3) (dt : Val)

/-- One operation on the pair of object and GL context. -/
def applyOp (K : ShaderFile → Kernel) (s : VoxelTexture × GLState) :
    Op → Option (VoxelTexture × GLState)
  | Op.init => init_textures s.1 s.2
  | Op.step a b dt => some (simulationStep K s.1 a b dt s.2)

/-- A sequence of operations, in order. -/
def run (K : ShaderFile → Kernel) : VoxelTexture × GLState → List Op →
    Option (VoxelTexture × GLState)
  | s, [] => some s
  | s, op :: ops =>
    match applyOp K s op with
    | none => none
    | some s' => run K s' ops

/-- A sequence of `simulationStep` calls, given by their arguments. -/
def simulate (K : ShaderFile → Kernel) (s : VoxelTexture × GLState)
    (steps : List (Vec3 × Vec3 × Val)) : VoxelTexture × GLState :=
  steps.foldl (fun s a => simulationStep K s.1 a.1 a.2.1 a.2.2 s.2) s

/-- What a record of calls makes the GPU do: a dispatch, with the program in use
and the texture bound to image unit 0 at that moment, or a barrier. -/
inductive Event where
  | dispatch (program image gx gy gz : Nat)
  | barrier
  deriving DecidableEq

/-- Replays a record of calls, starting with program `p` in use and texture `img`
bound to image unit 0, and lists the dispatches and barriers in order. -/
def events : Nat → Nat → List GLCall → List Event
  | _, _, [] => []
  | _, img, GLCall.useProgram q :: cs => events q img cs
  | p, img, GLCall.bindImageTexture unit t :: cs =>
    if unit = 0 then events p t cs else events p img cs
  | p, img, GLCall.dispatchCompute x y z :: cs => Event.dispatch p img x y z :: events p img cs
  | p, img, GLCall.memoryBarrier :: cs => Event.barrier :: events p img cs
  | p, img, _ :: cs => events p img cs

/-- Textures named by the binding calls of a record (0 releases a binding). -/
def boundTextures : List GLCall → List Nat
  | [] => []
  | GLCall.bindTexture3D t :: cs => t :: boundTextures cs
  | GLCall.bindImageTexture _ t :: cs => t :: boundTextures cs
  | _ :: cs => boundTextures cs

/-- The calls one `simulationStep` makes, in order (voxeltexture.hpp:117-148). -/
def stepCalls (vt : VoxelTexture) (dt : Val) : List GLCall :=
  [GLCall.useProgram vt.diffuseShaderID,
   GLCall.setUniform vt.diffuseShaderID "dt" (UVal.float dt),
   GLCall.setUniform vt.diffuseShaderID "mu_density" (UVal.float 0),
   GLCall.setUniform vt.diffuseShaderID "mu_velocity" (UVal.float 0),
   GLCall.setUniform vt.diffuseShaderID "u_inputImg" (UVal.int 0),
   GLCall.activeTexture 0,
   GLCall.bindTexture3D (stepTarget vt),
   GLCall.bindImageTexture 0 (stepTarget vt)] ++
  (List.replicate 15
    [GLCall.dispatchCompute (vt.dimXZ / 8) (vt.dimY / 8) (vt.dimXZ / 8),
     GLCall.memoryBarrier]).flatten ++
  [GLCall.useProgram vt.advectShaderID,
   GLCall.setUniform vt.advectShaderID "dt" (UVal.float (1 / 100)),
   GLCall.setUniform vt.advectShaderID "u_inputImg" (UVal.int 0),
   GLCall.setUniform vt.advectShaderID "u_velocity" (UVal.int 0),
   GLCall.dispatchCompute (vt.dimXZ / 8) (vt.dimY / 8) (vt.dimXZ / 8),
   GLCall.memoryBarrier,
   GLCall.bindImageTexture 0 0,
   GLCall.bindTexture3D 0,
   GLCall.useProgram 0]

/-- State invariant of every run: the lattice is the default one, the identifiers
of the object were handed out by the context, and the two texture identifiers
differ unless both are still 0. -/
def Consistent (s : VoxelTexture × GLState) : Prop :=
  s.1.dimXZ = 128 ∧ s.1.dimY = 128 ∧
  s.1.previousTextureID ≤ s.2.lastTexture ∧ s.1.currentTextureID ≤ s.2.lastTexture ∧
  (s.1.previousTextureID = s.1.currentTextureID → s.1.previousTextureID = 0)

/-- Shader file and link status of the program named `p`, if it exists. -/
def programShape (gl : GLState) (p : Nat) : Option (Option ShaderFile × Bool) :=
  (gl.programs p).map (fun prog => (prog.shader, prog.linked))

/-- Dimensions of the image of texture `t`, and whether its contents are specified. -/
def texShape (gl : GLState) (t : Nat) : Option (Nat × Nat × Nat × Bool) :=
  (gl.textures t).map (fun img => (img.width, img.height, img.depth, img.texels.isSome))

/-- State invariant after `init_textures`: the flag is false, the two textures are
distinct, the previous texture has a 128 x 128 x 128 image with contents, the
diffusion and advection programs are distinct linked programs made from their
shader files. -/
def Ready (s : VoxelTexture × GLState) : Prop :=
  Consistent s ∧ s.1.swap = false ∧
  s.1.previousTextureID ≠ 0 ∧ s.1.currentTextureID ≠ 0 ∧
  s.1.previousTextureID ≠ s.1.currentTextureID ∧
  s.1.diffuseShaderID ≠ s.1.advectShaderID ∧
  programShape s.2 s.1.diffuseShaderID = some (some ShaderFile.diffuse, true) ∧
  programShape s.2 s.1.advectShaderID = some (some ShaderFile.advect, true) ∧
  texShape s.2 s.1.previousTextureID = some (128, 128, 128, true)

/-- The part of the context that a dispatch or a barrier leaves alone. -/
def SameBindings (g g' : GLState) : Prop :=
  g'.programs = g.programs ∧ g'.currentProgram = g.currentProgram ∧
  g'.imageUnit = g.imageUnit ∧ g'.boundTex3D = g.boundTex3D ∧
  g'.activeUnit = g.activeUnit ∧ g'.lastTexture = g.lastTexture ∧
  g'.lastProgram = g.lastProgram

/-- The calls of `simulationStep` before its loop (voxeltexture.hpp:117-127). -/
def diffusionSetup (vt : VoxelTexture) (dt : Val) (gl : GLState) : GLState :=
  glBindImageTexture 0 (stepTarget vt) (glBindTexture3D (stepTarget vt) (glActiveTexture 0
    (setUniform vt.diffuseShaderID "u_inputImg" (UVal.int 0)
      (setUniform vt.diffuseShaderID "mu_velocity" (UVal.float 0)
        (setUniform vt.diffuseShaderID "mu_density" (UVal.float 0)
          (setUniform vt.diffuseShaderID "dt" (UVal.float dt)
            (glUseProgram vt.diffuseShaderID gl)))))))

/-- The uniforms of the diffusion program after the four `setUniform` calls. -/
def diffusionUniforms (dt : Val) (u : Uniforms) : Uniforms :=
  Function.update (Function.update (Function.update (Function.update u
    "dt" (some (UVal.float dt))) "mu_density" (some (UVal.float 0)))
    "mu_velocity" (some (UVal.float 0))) "u_inputImg" (some (UVal.int 0))

/-- The uniforms of the advection program after the three `setUniform` calls. -/
def advectionUniforms (u : Uniforms) : Uniforms :=
  Function.update (Function.update (Function.update u
    "dt" (some (UVal.float (1 / 100)))) "u_inputImg" (some (UVal.int 0)))
    "u_velocity" (some (UVal.int 0))

/-- The calls of `simulationStep` between its loop and the advection dispatch
(voxeltexture.hpp:136-139). -/
def advectionSetup (vt : VoxelTexture) (gl : GLState) : GLState :=
  setUniform vt.advectShaderID "u_velocity" (UVal.int 0)
    (setUniform vt.advectShaderID "u_inputImg" (UVal.int 0)
      (setUniform vt.advectShaderID "dt" (UVal.float (1 / 100))
        (glUseProgram vt.advectShaderID gl)))

/-- The four assignments of the innermost loop body of `generate_data`
(voxeltexture.hpp:43, 46, 47, 48), as pairs of index and value, in order. -/
def writeCellStores (dimXZ dimY i j k : Nat) : List (Nat × Val) :=
  [(densityIndex dimXZ dimY i j k, seedDensity i j k),
   (channelIndex dimXZ dimY 1 i j k, seedVelocity i j k),
   (channelIndex dimXZ dimY 2 i j k, -(seedVelocity i j k)),
   (channelIndex dimXZ dimY 3 i j k, seedVelocity i j k)]

/-- All assignments of `generate_data`, in the order in which the three nested
loops (voxeltexture.hpp:38-40) make them. -/
def seedStores (dimXZ dimY : Nat) : List (Nat × Val) :=
  (List.range dimXZ).flatMap (fun i =>
    (List.range dimY).flatMap (fun j =>
      (List.range dimXZ).flatMap (fun k => writeCellStores dimXZ dimY i j k)))

/-- Performs a list of assignments `data[idx] = v` in order, failing at the first
index outside the vector. -/
def runStores : List (Nat × Val) → List Val → Option (List Val)
  | [], d => some d
  | w :: ws, d =>
    match store d w.1 w.2 with
    | none => none
    | some d' => runStores ws d'

/-! ## Lemmas: loops -/

theorem loopFrom_spec {σ : Type} (body : Nat → σ → Option σ) (I : Nat → σ → Prop) :
    ∀ (fuel start : Nat) (s : σ), I start s →
      (∀ m t, start ≤ m → m < start + fuel → I m t → ∃ t', body m t = some t' ∧ I (m + 1) t') →
      ∃ s', loopFrom body start fuel s = some s' ∧ I (start + fuel) s' := by
  intro fuel
  induction fuel with
  | zero => intro start s h0 _; exact ⟨s, rfl, by simpa using h0⟩
  | succ f ih =>
    intro start s h0 hstep
    obtain ⟨t, ht, hI⟩ := hstep start s (le_refl _) (by omega) h0
    obtain ⟨s', hs', hI'⟩ := ih (start + 1) t hI (fun m u h1 h2 hu => hstep m u (by omega) (by omega) hu)
    refine ⟨s', ?_, ?_⟩
    · simp only [loopFrom, ht]; exact hs'
    · have : start + (f + 1) = start + 1 + f := by omega
      rw [this]; exact hI'

theorem forLoop_spec {σ : Type} (n : Nat) (body : Nat → σ → Option σ) (I : Nat → σ → Prop)
    (s : σ) (h0 : I 0 s)
    (hstep : ∀ m t, m < n → I m t → ∃ t', body m t = some t' ∧ I (m + 1) t') :
    ∃ s', forLoop n body s = some s' ∧ I n s' := by
  have := loopFrom_spec body I n 0 s h0 (fun m t _ h2 ht => hstep m t (by omega) ht)
  simpa [forLoop] using this

theorem forLoop_fail_first {σ : Type} (n : Nat) (body : Nat → σ → Option σ) (s : σ)
    (hn : 0 < n) (h : body 0 s = none) : forLoop n body s = none := by
  obtain ⟨m, rfl⟩ : ∃ m, n = m + 1 := ⟨n - 1, by omega⟩
  simp [forLoop, loopFrom, h]

/-! ## Lemmas: index arithmetic -/

theorem cell_lt {X Y i j k : Nat} (hi : i < X) (hj : j < Y) (hk : k < X) :
    i + j * X + k * X * Y < cellCount X Y := by
  have h1 : i + j * X < Y * X := by
    calc i + j * X < X + j * X := by omega
      _ = (j + 1) * X := by ring
      _ ≤ Y * X := Nat.mul_le_mul_right X hj
  have h2 : (k + 1) * (X * Y) ≤ X * (X * Y) := Nat.mul_le_mul_right (X * Y) hk
  have h3 : k * X * Y = k * (X * Y) := by ring
  have h4 : (k + 1) * (X * Y) = X * Y + k * (X * Y) := by ring
  have h5 : Y * X = X * Y := by ring
  have h6 : cellCount X Y = X * (X * Y) := by unfold cellCount; ring
  omega

theorem flatIndex_lt {X Y c i j k : Nat} (hi : i < X) (hj : j < Y) (hk : k < X) (hc : c < 4) :
    flatIndex X Y c i j k < 4 * cellCount X Y := by
  have h := cell_lt hi hj hk
  have h2 : (c + 1) * cellCount X Y ≤ 4 * cellCount X Y := Nat.mul_le_mul_right _ hc
  have h3 : (c + 1) * cellCount X Y = c * cellCount X Y + cellCount X Y := by ring
  unfold flatIndex
  omega

theorem flatIndex_block {X Y c i j k : Nat} (hi : i < X) (hj : j < Y) (hk : k < X) :
    c * cellCount X Y ≤ flatIndex X Y c i j k ∧
      flatIndex X Y c i j k < (c + 1) * cellCount X Y := by
  have h := cell_lt hi hj hk
  have h3 : (c + 1) * cellCount X Y = c * cellCount X Y + cellCount X Y := by ring
  unfold flatIndex
  omega

theorem flatIndex_inj {X Y c i j k c' i' j' k' : Nat}
    (hi : i < X) (hj : j < Y) (hk : k < X) (hi' : i' < X) (hj' : j' < Y) (hk' : k' < X)
    (h : flatIndex X Y c i j k = flatIndex X Y c' i' j' k') :
    c = c' ∧ i = i' ∧ j = j' ∧ k = k' := by
  have hN := cell_lt hi hj hk
  have hN' := cell_lt hi' hj' hk'
  have hpos : 0 < cellCount X Y := by omega
  unfold flatIndex at h
  set N := cellCount X Y
  have hc : c = c' := by
    have e1 : (i + j * X + k * X * Y + c * N) / N = c := by
      rw [Nat.add_mul_div_right _ _ hpos, Nat.div_eq_of_lt hN]; simp
    have e2 : (i' + j' * X + k' * X * Y + c' * N) / N = c' := by
      rw [Nat.add_mul_div_right _ _ hpos, Nat.div_eq_of_lt hN']; simp
    rw [h] at e1; omega
  subst hc
  have hcell : i + j * X + k * X * Y = i' + j' * X + k' * X * Y := by omega
  have hXpos : 0 < X := by omega
  have hr : ∀ a b c : Nat, a + b * X + c * X * Y = a + X * (b + Y * c) := by
    intro a b c; ring
  rw [hr, hr] at hcell
  have hii : i = i' := by
    have e1 : (i + X * (j + Y * k)) % X = i := by
      rw [Nat.add_mul_mod_self_left]; exact Nat.mod_eq_of_lt hi
    have e2 : (i' + X * (j' + Y * k')) % X = i' := by
      rw [Nat.add_mul_mod_self_left]; exact Nat.mod_eq_of_lt hi'
    rw [hcell] at e1; omega
  subst hii
  have hjk : j + Y * k = j' + Y * k' := by
    have := Nat.eq_of_mul_eq_mul_left hXpos (show X * (j + Y * k) = X * (j' + Y * k') by omega)
    exact this
  have hjj : j = j' := by
    have e1 : (j + Y * k) % Y = j := by
      rw [Nat.add_mul_mod_self_left]; exact Nat.mod_eq_of_lt hj
    have e2 : (j' + Y * k') % Y = j' := by
      rw [Nat.add_mul_mod_self_left]; exact Nat.mod_eq_of_lt hj'
    rw [hjk] at e1; omega
  subst hjj
  have hkk : k = k' := by
    have hYpos : 0 < Y := by omega
    exact Nat.eq_of_mul_eq_mul_left hYpos (show Y * k = Y * k' by omega)
  exact ⟨rfl, rfl, rfl, hkk⟩

theorem flatIndex_surj {X Y n : Nat} (hn : n < 4 * cellCount X Y) :
    ∃ c i j k, c < 4 ∧ i < X ∧ j < Y ∧ k < X ∧ flatIndex X Y c i j k = n := by
  have hNpos : 0 < cellCount X Y := by omega
  have hXpos : 0 < X := by
    rcases Nat.eq_zero_or_pos X with h | h
    · subst h; simp [cellCount] at hNpos
    · exact h
  have hYpos : 0 < Y := by
    rcases Nat.eq_zero_or_pos Y with h | h
    · subst h; simp [cellCount] at hNpos
    · exact h
  set N := cellCount X Y with hN
  have hm : n % N < N := Nat.mod_lt _ hNpos
  refine ⟨n / N, (n % N) % X, ((n % N) / X) % Y, (n % N) / X / Y, ?_, ?_, ?_, ?_, ?_⟩
  · exact Nat.div_lt_of_lt_mul (by omega)
  · exact Nat.mod_lt _ hXpos
  · exact Nat.mod_lt _ hYpos
  · apply Nat.div_lt_of_lt_mul
    apply Nat.div_lt_of_lt_mul
    have : X * (Y * X) = N := by rw [hN]; unfold cellCount; ring
    omega
  · unfold flatIndex
    rw [← hN]
    have e1 := Nat.mod_add_div (n % N) X
    have e2 := Nat.mod_add_div (n % N / X) Y
    have e3 := Nat.mod_add_div n N
    have e4 : n % N / X / Y * X * Y = X * (Y * (n % N / X / Y)) := by ring
    have e5 : n % N / X % Y * X = X * (n % N / X % Y) := by ring
    have e6 : X * (n % N / X) = X * (n % N / X % Y) + X * (Y * (n % N / X / Y)) := by
      rw [← Nat.mul_add, e2]
    have e7 : n / N * N = N * (n / N) := by ring
    omega

theorem umul_eq {a b : Nat} (h : a * b < 2 ^ 32) : umul a b = a * b := by
  unfold umul; exact Nat.mod_eq_of_lt h

theorem uadd_eq {a b : Nat} (h : a + b < 2 ^ 32) : uadd a b = a + b := by
  unfold uadd; exact Nat.mod_eq_of_lt h

theorem allocSize_eq {X Y : Nat} (H : 4 * cellCount X Y < 2 ^ 32) :
    allocSize X Y = 4 * cellCount X Y := by
  unfold cellCount at H
  have h1 : X * Y ≤ X * Y * X * 4 ∨ X = 0 := by
    rcases Nat.eq_zero_or_pos X with h | h
    · exact Or.inr h
    · left
      calc X * Y = X * Y * 1 := by ring
        _ ≤ X * Y * (X * 4) := Nat.mul_le_mul_left _ (by omega)
        _ = X * Y * X * 4 := by ring
  unfold allocSize cellCount
  rcases h1 with h1 | h1
  · have hxy : X * Y < 2 ^ 32 := by omega
    have h2 : X * Y * X < 2 ^ 32 := by omega
    rw [umul_eq hxy, umul_eq h2, umul_eq (by omega)]; ring
  · subst h1; simp [umul]

theorem densityIndex_eq {X Y i j k : Nat} (H : 4 * cellCount X Y < 2 ^ 32)
    (hi : i < X) (hj : j < Y) (hk : k < X) :
    densityIndex X Y i j k = flatIndex X Y 0 i j k := by
  have h := cell_lt hi hj hk
  have hYpos : 0 < Y := by omega
  have h1 : k * X ≤ k * X * Y := Nat.le_mul_of_pos_right _ hYpos
  have e1 : umul j X = j * X := umul_eq (by omega)
  have e2 : umul k X = k * X := umul_eq (by omega)
  have e3 : umul (k * X) Y = k * X * Y := umul_eq (by omega)
  have e4 : uadd i (j * X) = i + j * X := uadd_eq (by omega)
  have e5 : uadd (i + j * X) (k * X * Y) = i + j * X + k * X * Y := uadd_eq (by omega)
  unfold densityIndex flatIndex
  rw [e1, e2, e3, e4, e5]
  simp

theorem channelIndex_eq {X Y c i j k : Nat} (H : 4 * cellCount X Y < 2 ^ 32)
    (hi : i < X) (hj : j < Y) (hk : k < X) (hc : c < 4) :
    channelIndex X Y c i j k = flatIndex X Y c i j k := by
  have h := cell_lt hi hj hk
  have hYpos : 0 < Y := by omega
  have hXpos : 0 < X := by omega
  have h0 : c * cellCount X Y ≤ 3 * cellCount X Y := Nat.mul_le_mul_right _ (by omega)
  have h1 : c * X ≤ c * X * Y := Nat.le_mul_of_pos_right _ hYpos
  have h2 : c * X * Y ≤ c * X * Y * X := Nat.le_mul_of_pos_right _ hXpos
  have h3 : c * X * Y * X = c * cellCount X Y := by unfold cellCount; ring
  have e1 : umul c X = c * X := umul_eq (by omega)
  have e2 : umul (c * X) Y = c * X * Y := umul_eq (by omega)
  have e3 : umul (c * X * Y) X = c * X * Y * X := umul_eq (by omega)
  have e4 : uadd (i + j * X + k * X * Y) (c * X * Y * X)
      = i + j * X + k * X * Y + c * X * Y * X := uadd_eq (by omega)
  unfold channelIndex
  rw [densityIndex_eq H hi hj hk]
  unfold flatIndex
  rw [e1, e2, e3]
  simp only [Nat.zero_mul, Nat.add_zero]
  rw [e4, h3]

/-! ## Lemmas: seeding -/

theorem store_eq {d : List Val} {idx : Nat} (v : Val) (h : idx < d.length) :
    store d idx v = some (d.set idx v) := by
  simp [store, h]

theorem seededOn_mono {X Y : Nat} {P Q : Nat → Nat → Nat → Prop} {d : List Val}
    (h : SeededOn X Y P d) (hPQ : ∀ i j k, i < X → j < Y → k < X → Q i j k → P i j k) :
    SeededOn X Y Q d :=
  ⟨h.1, fun i j k c hi hj hk hc hq => h.2 i j k c hi hj hk hc (hPQ i j k hi hj hk hq)⟩

theorem writeCell_spec {X Y i j k : Nat} (H : 4 * cellCount X Y < 2 ^ 32)
    (hi : i < X) (hj : j < Y) (hk : k < X) {P : Nat → Nat → Nat → Prop} {d : List Val}
    (hd : SeededOn X Y P d) :
    ∃ d', writeCell X Y i j k d = some d' ∧
      SeededOn X Y (fun a b c => P a b c ∨ (a = i ∧ b = j ∧ c = k)) d' := by
  obtain ⟨hlen, hval⟩ := hd
  have f0 := flatIndex_lt (c := 0) hi hj hk (by omega)
  have f1 := flatIndex_lt (c := 1) hi hj hk (by omega)
  have f2 := flatIndex_lt (c := 2) hi hj hk (by omega)
  have f3 := flatIndex_lt (c := 3) hi hj hk (by omega)
  refine ⟨(((d.set (flatIndex X Y 0 i j k) (seedDensity i j k)).set
      (flatIndex X Y 1 i j k) (seedVelocity i j k)).set
      (flatIndex X Y 2 i j k) (-(seedVelocity i j k))).set
      (flatIndex X Y 3 i j k) (seedVelocity i j k), ?_, ?_, ?_⟩
  · unfold writeCell
    rw [densityIndex_eq H hi hj hk, channelIndex_eq H hi hj hk (by omega),
      channelIndex_eq H hi hj hk (by omega), channelIndex_eq H hi hj hk (by omega)]
    rw [store_eq _ (by omega)]
    simp only
    rw [store_eq _ (by simp; omega)]
    simp only
    rw [store_eq _ (by simp; omega)]
    simp only
    rw [store_eq _ (by simp; omega)]
  · simp [hlen]
  · intro a b c ch ha hb hc hch hP
    by_cases hcell : a = i ∧ b = j ∧ c = k
    · obtain ⟨rfl, rfl, rfl⟩ := hcell
      have hne : ∀ c1 c2 : Nat, c1 ≠ c2 → flatIndex X Y c1 a b c ≠ flatIndex X Y c2 a b c := by
        intro c1 c2 h12 he
        exact h12 (flatIndex_inj hi hj hk hi hj hk he).1
      interval_cases ch
      · simp [List.getElem?_set, hne 3 0 (by decide), hne 2 0 (by decide), hne 1 0 (by decide),
          hlen, f0, seedValue]
      · simp [List.getElem?_set, hne 3 1 (by decide), hne 2 1 (by decide),
          hlen, f1, seedValue]
      · simp [List.getElem?_set, hne 3 2 (by decide), hlen, f2, seedValue]
      · simp [List.getElem?_set, hlen, f3, seedValue]
    · have hne : ∀ c1 : Nat, flatIndex X Y c1 i j k ≠ flatIndex X Y ch a b c := by
        intro c1 he
        obtain ⟨-, h1, h2, h3⟩ := flatIndex_inj hi hj hk ha hb hc he
        exact hcell ⟨h1.symm, h2.symm, h3.symm⟩
      have hP' : P a b c := by
        rcases hP with h | h
        · exact h
        · exact absurd h hcell
      rw [List.getElem?_set_ne (hne 3), List.getElem?_set_ne (hne 2),
        List.getElem?_set_ne (hne 1), List.getElem?_set_ne (hne 0)]
      exact hval a b c ch ha hb hc hch hP'

theorem seedLoops_spec {X Y : Nat} (H : 4 * cellCount X Y < 2 ^ 32) {d : List Val}
    (hd : d.length = 4 * cellCount X Y) :
    ∃ d', seedLoops X Y d = some d' ∧ SeededOn X Y (fun _ _ _ => True) d' := by
  have outer := forLoop_spec X
    (fun i d => forLoop Y (fun j d => forLoop X (fun k d => writeCell X Y i j k d) d) d)
    (fun m d => SeededOn X Y (fun a _ _ => a < m) d) d
    ⟨hd, fun i j k c _ _ _ _ h => absurd h (by omega)⟩ ?_
  · obtain ⟨d', h1, h2⟩ := outer
    exact ⟨d', h1, ⟨h2.1, fun i j k c hi hj hk hc _ => h2.2 i j k c hi hj hk hc hi⟩⟩
  · intro i t hi ht
    have middle := forLoop_spec Y
      (fun j d => forLoop X (fun k d => writeCell X Y i j k d) d)
      (fun m d => SeededOn X Y (fun a b _ => a < i ∨ (a = i ∧ b < m)) d) t
      (seededOn_mono ht (by intro a b c _ _ _ h; omega)) ?_
    · obtain ⟨t', h1, h2⟩ := middle
      exact ⟨t', h1, seededOn_mono h2 (by intro a b c _ _ _ h; omega)⟩
    · intro j u hj hu
      have inner := forLoop_spec X (fun k d => writeCell X Y i j k d)
        (fun m d => SeededOn X Y (fun a b c => (a < i ∨ (a = i ∧ b < j)) ∨ (a = i ∧ b = j ∧ c < m)) d)
        u (seededOn_mono hu (by intro a b c _ _ _ h; omega)) ?_
      · obtain ⟨u', h1, h2⟩ := inner
        exact ⟨u', h1, seededOn_mono h2 (by intro a b c _ _ _ h; omega)⟩
      · intro k v hk hv
        obtain ⟨v', h1, h2⟩ := writeCell_spec H hi hj hk hv
        exact ⟨v', h1, seededOn_mono h2 (by intro a b c _ _ _ h; omega)⟩

theorem generate_data_spec (vt : VoxelTexture)
    (H : 4 * cellCount vt.dimXZ vt.dimY < 2 ^ 32) :
    ∃ d, generate_data vt = some { vt with data := d } ∧
      SeededOn vt.dimXZ vt.dimY (fun _ _ _ => True) d := by
  obtain ⟨d, h1, h2⟩ := seedLoops_spec H
    (d := List.replicate (allocSize vt.dimXZ vt.dimY) 0) (by simp [allocSize_eq H])
  exact ⟨d, by simp [generate_data, h1], h2⟩

/-! ## Lemmas: the diffusion kernel at rate zero -/

theorem decode_encode (w h idx : Nat) :
    idx % w + idx / w % h * w + idx / (w * h) * w * h = idx := by
  have e1 := Nat.mod_add_div idx w
  have e2 := Nat.mod_add_div (idx / w) h
  rw [← Nat.div_div_eq_div_mul]
  have e3 : idx / w % h * w + idx / w / h * w * h = w * (idx / w % h + h * (idx / w / h)) := by
    ring
  rw [e2] at e3
  omega

theorem fieldAt_inside {sx sy sz : Nat} (f : List Val) (c : Nat) {x y z : Nat}
    (hx : x < sx) (hy : y < sy) (hz : z < sz) :
    fieldAt sx sy sz f c x y z = f.getD (x + y * sx + z * sx * sy + c * (sx * sy * sz)) 0 := by
  simp [fieldAt, hx, hy, hz]

theorem jacobiCell_zero_rate (sx sy sz : Nat) (muD muV dt : Val) (f : List Val)
    (c x y z : Nat) (h : (if c = 0 then muD else muV) = 0) :
    jacobiCell sx sy sz muD muV dt f c x y z = fieldAt sx sy sz f c x y z := by
  simp [jacobiCell, h]

theorem map_getD_range (t : List Val) (g : Nat → Val)
    (h : ∀ idx, idx < t.length → g idx = t.getD idx 0) :
    (List.range t.length).map g = t := by
  apply List.ext_getElem?
  intro n
  by_cases hn : n < t.length
  · rw [List.getElem?_map, List.getElem?_range hn]
    simp [h n hn, List.getD_eq_getElem?_getD, List.getElem?_eq_getElem hn]
  · have h1 : t.length ≤ n := by omega
    rw [List.getElem?_eq_none_iff.mpr (by simpa using h1), List.getElem?_eq_none_iff.mpr h1]

theorem runKernel_diffuse_zero (u : Uniforms) (samplers : Nat → Option TexImage)
    (gx gy gz : Nat) (img : TexImage) (h : u.getFloat "mu_density" = 0) :
    runKernel diffuseKernel u samplers gx gy gz img = img := by
  unfold runKernel
  cases ht : img.texels with
  | none => rfl
  | some t =>
    have : (List.range t.length).map (fun idx =>
        if idx % img.width < img.width ∧ idx / img.width % img.height < img.height ∧
            idx / (img.width * img.height) < img.depth ∧
            idx % img.width < groupSize * gx ∧ idx / img.width % img.height < groupSize * gy ∧
            idx / (img.width * img.height) < groupSize * gz then
          diffuseKernel u samplers img.width img.height img.depth t (idx % img.width)
            (idx / img.width % img.height) (idx / (img.width * img.height))
        else t.getD idx 0) = t := by
      apply map_getD_range
      intro idx _
      split
      · rename_i hc
        unfold diffuseKernel
        rw [jacobiCell_zero_rate _ _ _ _ _ _ _ _ _ _ _ (by simp [h]),
          fieldAt_inside _ _ hc.1 hc.2.1 hc.2.2.1]
        simp [decode_encode]
      · rfl
    simp only [this]
    cases img
    simp_all

theorem diffuseField_zero (sx sy sz : Nat) (dt : Val) (f : List Val) :
    diffuseField sx sy sz 0 0 dt f = f := by
  unfold diffuseField
  apply map_getD_range
  intro idx _
  simp only
  split
  · rename_i hc
    rw [jacobiCell_zero_rate _ _ _ _ _ _ _ _ _ _ _ (by simp), fieldAt_inside _ _ hc.1 hc.2.1 hc.2.2]
    congr 1
    have e1 := decode_encode sx sy (idx % (sx * sy * sz))
    have e2 := Nat.mod_add_div idx (sx * sy * sz)
    have e3 : idx / (sx * sy * sz) * (sx * sy * sz) = sx * sy * sz * (idx / (sx * sy * sz)) := by
      ring
    omega
  · rfl

/-! ## Lemmas: one step -/

theorem forN_invariant {σ : Type} (body : Nat → σ → σ) (P : σ → Prop)
    (h : ∀ i s, P s → P (body i s)) : ∀ (n start : Nat) (s : σ), P s → P (forN body start n s) := by
  intro n
  induction n with
  | zero => intro _ s hs; exact hs
  | succ m ih => intro start s hs; exact ih (start + 1) (body start s) (h start s hs)

theorem forN_calls (body : Nat → GLState → GLState) (cs : List GLCall)
    (h : ∀ i gl, (body i gl).calls = gl.calls ++ cs) :
    ∀ (n start : Nat) (gl : GLState),
      (forN body start n gl).calls = gl.calls ++ (List.replicate n cs).flatten := by
  intro n
  induction n with
  | zero => intro _ gl; simp [forN]
  | succ m ih =>
    intro start gl
    simp only [forN]
    rw [ih, h, List.replicate_succ, List.flatten_cons, List.append_assoc]

/-- The loop body of the diffusion pass: a dispatch followed by a barrier. -/
theorem dispatch_barrier_calls (K : ShaderFile → Kernel) (gx gy gz : Nat) (gl : GLState) :
    (glMemoryBarrier (glDispatchCompute K gx gy gz gl)).calls =
      gl.calls ++ [GLCall.dispatchCompute gx gy gz, GLCall.memoryBarrier] := by
  simp [glMemoryBarrier, glDispatchCompute, GLState.log]

theorem diffusionPass_calls (K : ShaderFile → Kernel) (vt : VoxelTexture) (dt : Val)
    (gl : GLState) :
    (diffusionPass K vt dt gl).calls = gl.calls ++
      ([GLCall.useProgram vt.diffuseShaderID,
        GLCall.setUniform vt.diffuseShaderID "dt" (UVal.float dt),
        GLCall.setUniform vt.diffuseShaderID "mu_density" (UVal.float 0),
        GLCall.setUniform vt.diffuseShaderID "mu_velocity" (UVal.float 0),
        GLCall.setUniform vt.diffuseShaderID "u_inputImg" (UVal.int 0),
        GLCall.activeTexture 0,
        GLCall.bindTexture3D (stepTarget vt),
        GLCall.bindImageTexture 0 (stepTarget vt)] ++
      (List.replicate 15
        [GLCall.dispatchCompute (vt.dimXZ / 8) (vt.dimY / 8) (vt.dimXZ / 8),
         GLCall.memoryBarrier]).flatten) := by
  unfold diffusionPass
  simp only []
  rw [forN_calls _ _ (fun _ gl => dispatch_barrier_calls K _ _ _ gl)]
  simp [glUseProgram, setUniform, glActiveTexture, glBindTexture3D, glBindImageTexture,
    GLState.log]

theorem advectionPass_calls (K : ShaderFile → Kernel) (vt : VoxelTexture) (gl : GLState) :
    (advectionPass K vt gl).calls = gl.calls ++
      [GLCall.useProgram vt.advectShaderID,
       GLCall.setUniform vt.advectShaderID "dt" (UVal.float (1 / 100)),
       GLCall.setUniform vt.advectShaderID "u_inputImg" (UVal.int 0),
       GLCall.setUniform vt.advectShaderID "u_velocity" (UVal.int 0),
       GLCall.dispatchCompute (vt.dimXZ / 8) (vt.dimY / 8) (vt.dimXZ / 8),
       GLCall.memoryBarrier,
       GLCall.bindImageTexture 0 0,
       GLCall.bindTexture3D 0,
       GLCall.useProgram 0] := by
  simp [advectionPass, glUseProgram, setUniform, glActiveTexture, glBindTexture3D,
    glBindImageTexture, glMemoryBarrier, glDispatchCompute, GLState.log]

theorem simulationStep_calls (K : ShaderFile → Kernel) (vt : VoxelTexture) (a b : Vec3)
    (dt : Val) (gl : GLState) :
    (simulationStep K vt a b dt gl).2.calls = gl.calls ++ stepCalls vt dt := by
  simp only [simulationStep, advectionPass_calls, diffusionPass_calls, stepCalls,
    List.append_assoc]

theorem simulationStep_fst (K : ShaderFile → Kernel) (vt : VoxelTexture) (a b : Vec3)
    (dt : Val) (gl : GLState) : (simulationStep K vt a b dt gl).1 = vt := rfl

theorem simulate_fst (K : ShaderFile → Kernel) (steps : List (Vec3 × Vec3 × Val)) :
    ∀ s : VoxelTexture × GLState, (simulate K s steps).1 = s.1 := by
  induction steps with
  | nil => intro s; rfl
  | cons a as ih =>
    intro s
    have h := ih (simulationStep K s.1 a.1 a.2.1 a.2.2 s.2)
    unfold simulate at h ⊢
    rw [List.foldl_cons, h]
    exact simulationStep_fst K _ _ _ _ _

theorem simulate_cons (K : ShaderFile → Kernel) (s : VoxelTexture × GLState)
    (a : Vec3 × Vec3 × Val) (as : List (Vec3 × Vec3 × Val)) :
    simulate K s (a :: as) = simulate K (simulationStep K s.1 a.1 a.2.1 a.2.2 s.2) as := by
  unfold simulate
  exact List.foldl_cons _ _

theorem run_cons (K : ShaderFile → Kernel) (s : VoxelTexture × GLState) (op : Op)
    (ops : List Op) :
    run K s (op :: ops) = match applyOp K s op with
      | none => none
      | some s' => run K s' ops := by
  rw [run]

/-! ## Lemmas: initialisation -/

theorem deletePrograms_fields (vt : VoxelTexture) (gl : GLState) :
    ∃ g : GLState,
      (if vt.diffuseShaderID ≠ 0 then
          glDeleteProgram vt.diffuseShaderID
            (if vt.shaderID ≠ 0 then glDeleteProgram vt.shaderID gl else gl)
        else (if vt.shaderID ≠ 0 then glDeleteProgram vt.shaderID gl else gl)) = g ∧
      g.lastProgram = gl.lastProgram ∧ g.lastTexture = gl.lastTexture ∧
      g.textures = gl.textures := by
  refine ⟨_, rfl, ?_, ?_, ?_⟩ <;>
    by_cases h1 : vt.shaderID = 0 <;> by_cases h2 : vt.diffuseShaderID = 0 <;>
    simp [h1, h2, glDeleteProgram, GLState.log]

theorem createChain_spec (g : GLState) :
    (glLinkProgram (g.lastProgram + 3) (glLinkProgram (g.lastProgram + 2)
      (glLinkProgram (g.lastProgram + 1)
        (loadShader (g.lastProgram + 3) ShaderFile.advect
          (loadShader (g.lastProgram + 2) ShaderFile.diffuse
            (loadShader (g.lastProgram + 1) ShaderFile.compute
              (glCreateProgram (glCreateProgram (glCreateProgram g).2).2).2)))))).programs
        (g.lastProgram + 2) =
      some { shader := some ShaderFile.diffuse, linked := true, uniforms := fun _ => none } := by
  simp [glCreateProgram, loadShader, glLinkProgram, GLState.log, modifyProgram,
    Function.update_apply]

theorem createChain_advect (g : GLState) :
    (glLinkProgram (g.lastProgram + 3) (glLinkProgram (g.lastProgram + 2)
      (glLinkProgram (g.lastProgram + 1)
        (loadShader (g.lastProgram + 3) ShaderFile.advect
          (loadShader (g.lastProgram + 2) ShaderFile.diffuse
            (loadShader (g.lastProgram + 1) ShaderFile.compute
              (glCreateProgram (glCreateProgram (glCreateProgram g).2).2).2)))))).programs
        (g.lastProgram + 3) =
      some { shader := some ShaderFile.advect, linked := true, uniforms := fun _ => none } := by
  simp [glCreateProgram, loadShader, glLinkProgram, GLState.log, modifyProgram,
    Function.update_apply]

theorem createChain_fields (g : GLState) :
    (glLinkProgram (g.lastProgram + 3) (glLinkProgram (g.lastProgram + 2)
      (glLinkProgram (g.lastProgram + 1)
        (loadShader (g.lastProgram + 3) ShaderFile.advect
          (loadShader (g.lastProgram + 2) ShaderFile.diffuse
            (loadShader (g.lastProgram + 1) ShaderFile.compute
              (glCreateProgram (glCreateProgram (glCreateProgram g).2).2).2)))))).textures
        = g.textures ∧
    (glLinkProgram (g.lastProgram + 3) (glLinkProgram (g.lastProgram + 2)
      (glLinkProgram (g.lastProgram + 1)
        (loadShader (g.lastProgram + 3) ShaderFile.advect
          (loadShader (g.lastProgram + 2) ShaderFile.diffuse
            (loadShader (g.lastProgram + 1) ShaderFile.compute
              (glCreateProgram (glCreateProgram (glCreateProgram g).2).2).2)))))).lastTexture
        = g.lastTexture := by
  simp [glCreateProgram, loadShader, glLinkProgram, GLState.log]

theorem initPrograms_eq (vt : VoxelTexture) (gl : GLState) :
    ∃ g : GLState, g.lastProgram = gl.lastProgram ∧ g.lastTexture = gl.lastTexture ∧
      g.textures = gl.textures ∧
      initPrograms vt gl =
        ({ vt with shaderID := g.lastProgram + 1, diffuseShaderID := g.lastProgram + 2,
                   advectShaderID := g.lastProgram + 3 },
          glLinkProgram (g.lastProgram + 3) (glLinkProgram (g.lastProgram + 2)
            (glLinkProgram (g.lastProgram + 1)
              (loadShader (g.lastProgram + 3) ShaderFile.advect
                (loadShader (g.lastProgram + 2) ShaderFile.diffuse
                  (loadShader (g.lastProgram + 1) ShaderFile.compute
                    (glCreateProgram (glCreateProgram (glCreateProgram g).2).2).2)))))) := by
  obtain ⟨g, hg, h1, h2, h3⟩ := deletePrograms_fields vt gl
  refine ⟨g, h1, h2, h3, ?_⟩
  unfold initPrograms
  simp only [hg]
  rfl

theorem initPrograms_spec (vt : VoxelTexture) (gl : GLState) :
    ∃ gA : GLState,
      initPrograms vt gl =
        ({ vt with shaderID := gl.lastProgram + 1, diffuseShaderID := gl.lastProgram + 2,
                   advectShaderID := gl.lastProgram + 3 }, gA) ∧
      gA.programs (gl.lastProgram + 2) =
        some { shader := some ShaderFile.diffuse, linked := true, uniforms := fun _ => none } ∧
      gA.programs (gl.lastProgram + 3) =
        some { shader := some ShaderFile.advect, linked := true, uniforms := fun _ => none } ∧
      gA.textures = gl.textures ∧ gA.lastTexture = gl.lastTexture := by
  obtain ⟨g, hg1, hg2, hg3, hprog⟩ := initPrograms_eq vt gl
  refine ⟨(initPrograms vt gl).2, ?_, ?_, ?_, ?_, ?_⟩ <;> rw [hprog] <;> simp only
  · rw [hg1]
  · rw [← hg1]; exact createChain_spec g
  · rw [← hg1]; exact createChain_advect g
  · rw [(createChain_fields g).1, hg3]
  · rw [(createChain_fields g).2, hg2]

theorem initPreviousTexture_spec (vt : VoxelTexture) (g : GLState)
    (hlen : vt.dimXZ * vt.dimY * vt.dimXZ ≤ vt.data.length) :
    ∃ g' : GLState,
      initPreviousTexture vt g =
        some ({ vt with previousTextureID :=
                  if vt.previousTextureID = 0 then g.lastTexture + 1 else vt.previousTextureID },
              g') ∧
      g'.programs = g.programs ∧
      g'.lastTexture = (if vt.previousTextureID = 0 then g.lastTexture + 1 else g.lastTexture) ∧
      g'.textures = Function.update g.textures
        (if vt.previousTextureID = 0 then g.lastTexture + 1 else vt.previousTextureID)
        (some { width := vt.dimXZ, height := vt.dimY, depth := vt.dimXZ,
                texels := some (vt.data.take (vt.dimXZ * vt.dimY * vt.dimXZ)) }) := by
  have hnot : ¬ vt.data.length < vt.dimXZ * vt.dimY * vt.dimXZ := by omega
  by_cases h : vt.previousTextureID = 0
  · simp [initPreviousTexture, h, glGenTextures, glTexParameterBorder2D, glBindTexture3D,
      glTexParameter3D, glTexImage3D, GLState.log, hnot]
  · simp [initPreviousTexture, h, glGenTextures, glTexParameterBorder2D, glBindTexture3D,
      glTexParameter3D, glTexImage3D, GLState.log, hnot]

theorem initCurrentTexture_spec (vt : VoxelTexture) (g : GLState) :
    ∃ g' : GLState,
      initCurrentTexture vt g =
        some ({ vt with currentTextureID :=
                  if vt.currentTextureID = 0 then g.lastTexture + 1 else vt.currentTextureID },
              g') ∧
      g'.programs = g.programs ∧
      g'.lastTexture = (if vt.currentTextureID = 0 then g.lastTexture + 1 else g.lastTexture) ∧
      g'.textures = Function.update g.textures
        (if vt.currentTextureID = 0 then g.lastTexture + 1 else vt.currentTextureID)
        (some { width := vt.dimXZ, height := vt.dimY, depth := vt.dimXZ, texels := none }) := by
  by_cases h : vt.currentTextureID = 0
  · simp [initCurrentTexture, h, glGenTextures, glTexParameterBorder2D, glBindTexture3D,
      glTexParameter3D, glTexImage3D, GLState.log]
  · simp [initCurrentTexture, h, glGenTextures, glTexParameterBorder2D, glBindTexture3D,
      glTexParameter3D, glTexImage3D, GLState.log]

/-- Everything the claims need about one call of `init_textures` on a consistent
state. -/
theorem init_textures_spec (vt : VoxelTexture) (gl : GLState) (hc : Consistent (vt, gl)) :
    ∃ (d : List Val) (s' : VoxelTexture × GLState),
      SeededOn 128 128 (fun _ _ _ => True) d ∧
      generate_data vt = some { vt with data := d } ∧
      init_textures vt gl = some s' ∧
      s'.1.data = d ∧ s'.1.dimXZ = 128 ∧ s'.1.dimY = 128 ∧ s'.1.swap = false ∧
      s'.1.diffuseShaderID = gl.lastProgram + 2 ∧ s'.1.advectShaderID = gl.lastProgram + 3 ∧
      s'.2.programs (gl.lastProgram + 2) =
        some { shader := some ShaderFile.diffuse, linked := true, uniforms := fun _ => none } ∧
      s'.2.programs (gl.lastProgram + 3) =
        some { shader := some ShaderFile.advect, linked := true, uniforms := fun _ => none } ∧
      s'.2.textures s'.1.previousTextureID =
        some { width := 128, height := 128, depth := 128,
               texels := some (d.take (cellCount 128 128)) } ∧
      s'.2.textures s'.1.currentTextureID =
        some { width := 128, height := 128, depth := 128, texels := none } ∧
      s'.1.previousTextureID ≠ 0 ∧ s'.1.currentTextureID ≠ 0 ∧
      s'.1.previousTextureID ≠ s'.1.currentTextureID ∧
      s'.1.previousTextureID ≤ s'.2.lastTexture ∧ s'.1.currentTextureID ≤ s'.2.lastTexture := by
  obtain ⟨hX, hY, hp, hcur, hpc⟩ := hc
  simp only at hX hY hp hcur hpc
  have H : 4 * cellCount vt.dimXZ vt.dimY < 2 ^ 32 := by rw [hX, hY]; decide
  obtain ⟨d, hgen, hseed⟩ := generate_data_spec vt H
  rw [hX, hY] at hseed
  obtain ⟨gA, hprog, hpd, hpa, htA, hlA⟩ := initPrograms_spec { vt with data := d } gl
  have hlen : cellCount 128 128 ≤ d.length := by rw [hseed.1]; omega
  obtain ⟨g1, e1, p1, l1, t1⟩ := initPreviousTexture_spec
    { vt with data := d, shaderID := gl.lastProgram + 1, diffuseShaderID := gl.lastProgram + 2,
              advectShaderID := gl.lastProgram + 3 } gA
    (by simpa [hX, hY, cellCount] using hlen)
  obtain ⟨g2, e2, p2, l2, t2⟩ := initCurrentTexture_spec
    { vt with data := d, shaderID := gl.lastProgram + 1, diffuseShaderID := gl.lastProgram + 2,
              advectShaderID := gl.lastProgram + 3,
              previousTextureID :=
                if vt.previousTextureID = 0 then gA.lastTexture + 1 else vt.previousTextureID } g1
  simp only at e1 p1 l1 t1 e2 p2 l2 t2
  refine ⟨d,
    ({ vt with data := d, shaderID := gl.lastProgram + 1, diffuseShaderID := gl.lastProgram + 2,
               advectShaderID := gl.lastProgram + 3,
               previousTextureID :=
                 if vt.previousTextureID = 0 then gA.lastTexture + 1 else vt.previousTextureID,
               currentTextureID :=
                 if vt.currentTextureID = 0 then g1.lastTexture + 1 else vt.currentTextureID,
               swap := false }, g2), hseed, hgen, ?_, ?_⟩
  · simp only [init_textures, hgen, hprog, e1, e2]
  · rw [hlA] at l1 t1
    rw [l1] at l2 t2
    rw [htA] at t1
    simp only [hX, hY] at t1 t2
    simp only [hX, hY, p2, p1, hpd, hpa, t2, t1, l2, l1, hlA, true_and]
    simp only [cellCount]
    by_cases h1 : vt.previousTextureID = 0 <;> by_cases h2 : vt.currentTextureID = 0
    · simp [h1, h2, Function.update_apply]
    · have : vt.currentTextureID ≠ gl.lastTexture + 1 := by omega
      simp [h1, h2, Function.update_apply, this, Ne.symm this]
      omega
    · have : vt.previousTextureID ≠ gl.lastTexture + 1 := by omega
      simp [h1, h2, Function.update_apply, this, Ne.symm this]
      omega
    · have : vt.previousTextureID ≠ vt.currentTextureID := fun h => h1 (hpc h)
      simp [h1, h2, Function.update_apply, this, Ne.symm this]
      omega

/-! ## Lemmas: what a step changes -/

theorem sameBindings_refl (g : GLState) : SameBindings g g :=
  ⟨rfl, rfl, rfl, rfl, rfl, rfl, rfl⟩

theorem sameBindings_trans {g1 g2 g3 : GLState} (h : SameBindings g1 g2)
    (h' : SameBindings g2 g3) : SameBindings g1 g3 := by
  obtain ⟨a1, a2, a3, a4, a5, a6, a7⟩ := h
  obtain ⟨b1, b2, b3, b4, b5, b6, b7⟩ := h'
  exact ⟨b1.trans a1, b2.trans a2, b3.trans a3, b4.trans a4, b5.trans a5, b6.trans a6,
    b7.trans a7⟩

theorem body_sameBindings (K : ShaderFile → Kernel) (gx gy gz : Nat) (g : GLState) :
    SameBindings g (glMemoryBarrier (glDispatchCompute K gx gy gz g)) := by
  simp [SameBindings, glMemoryBarrier, glDispatchCompute, GLState.log]

theorem barrier_textures (g : GLState) : (glMemoryBarrier g).textures = g.textures := by
  simp [glMemoryBarrier, GLState.log]

theorem dispatch_textures_cases (K : ShaderFile → Kernel) (gx gy gz : Nat) (g : GLState) :
    (glDispatchCompute K gx gy gz g).textures = g.textures ∨
    ∃ prog file img, g.programs g.currentProgram = some prog ∧ prog.shader = some file ∧
      g.textures (g.imageUnit 0) = some img ∧
      (glDispatchCompute K gx gy gz g).textures =
        Function.update g.textures (g.imageUnit 0)
          (some (runKernel (kernelOf K file) prog.uniforms
            (fun unit => g.textures (g.boundTex3D unit)) gx gy gz img)) := by
  cases hp : g.programs g.currentProgram with
  | none => left; simp [glDispatchCompute, GLState.log, hp]
  | some prog =>
    cases hs : prog.shader with
    | none => left; simp [glDispatchCompute, GLState.log, hp, hs]
    | some file =>
      by_cases hl : prog.linked = true ∧ g.imageUnit 0 ≠ 0
      · cases ht : g.textures (g.imageUnit 0) with
        | none => left; simp [glDispatchCompute, GLState.log, hp, hs, ht]
        | some img =>
          right
          refine ⟨prog, file, img, rfl, hs, rfl, ?_⟩
          simp only [glDispatchCompute, GLState.log, hp, hs, ht]
          rw [if_pos hl]
      · left
        simp only [glDispatchCompute, GLState.log, hp, hs]
        rw [if_neg hl]

theorem dispatch_textures_other (K : ShaderFile → Kernel) (gx gy gz : Nat) (g : GLState)
    (t : Nat) (ht : t ≠ g.imageUnit 0) :
    (glDispatchCompute K gx gy gz g).textures t = g.textures t := by
  rcases dispatch_textures_cases K gx gy gz g with h | ⟨prog, file, img, -, -, -, h⟩
  · rw [h]
  · rw [h, Function.update_noteq ht]

theorem runKernel_shape (k : Kernel) (u : Uniforms) (sm : Nat → Option TexImage)
    (gx gy gz : Nat) (img : TexImage) :
    (runKernel k u sm gx gy gz img).width = img.width ∧
    (runKernel k u sm gx gy gz img).height = img.height ∧
    (runKernel k u sm gx gy gz img).depth = img.depth ∧
    (runKernel k u sm gx gy gz img).texels.isSome = img.texels.isSome := by
  unfold runKernel
  cases h : img.texels <;> simp [h]

theorem dispatch_texShape (K : ShaderFile → Kernel) (gx gy gz : Nat) (g : GLState) (t : Nat) :
    texShape (glDispatchCompute K gx gy gz g) t = texShape g t := by
  rcases dispatch_textures_cases K gx gy gz g with h | ⟨prog, file, img, -, -, himg, h⟩
  · simp only [texShape, h]
  · by_cases ht : t = g.imageUnit 0
    · subst ht
      simp [texShape, h, himg, runKernel_shape]
    · simp only [texShape, h, Function.update_noteq ht]

theorem dispatch_diffuse_zero (K : ShaderFile → Kernel) (gx gy gz : Nat) (g : GLState)
    (l : Bool) (u : Uniforms)
    (hp : g.programs g.currentProgram =
      some { shader := some ShaderFile.diffuse, linked := l, uniforms := u })
    (hu : u.getFloat "mu_density" = 0) :
    (glDispatchCompute K gx gy gz g).textures = g.textures := by
  rcases dispatch_textures_cases K gx gy gz g with h | ⟨prog, file, img, h1, h2, himg, h⟩
  · exact h
  · rw [hp] at h1
    cases h1
    cases h2
    rw [h]
    simp only [kernelOf, runKernel_diffuse_zero _ _ _ _ _ _ hu]
    rw [← himg, Function.update_eq_self]

theorem diffusionPass_eq (K : ShaderFile → Kernel) (vt : VoxelTexture) (dt : Val)
    (gl : GLState) :
    diffusionPass K vt dt gl =
      forN (fun _ gl =>
        glMemoryBarrier (glDispatchCompute K (vt.dimXZ / 8) (vt.dimY / 8) (vt.dimXZ / 8) gl))
        0 15 (diffusionSetup vt dt gl) := rfl

theorem diffusionSetup_fields (vt : VoxelTexture) (dt : Val) (gl : GLState) :
    (diffusionSetup vt dt gl).currentProgram = vt.diffuseShaderID ∧
    (diffusionSetup vt dt gl).imageUnit = Function.update gl.imageUnit 0 (stepTarget vt) ∧
    (diffusionSetup vt dt gl).boundTex3D = Function.update gl.boundTex3D 0 (stepTarget vt) ∧
    (diffusionSetup vt dt gl).activeUnit = 0 ∧
    (diffusionSetup vt dt gl).lastTexture = gl.lastTexture ∧
    (diffusionSetup vt dt gl).lastProgram = gl.lastProgram ∧
    (diffusionSetup vt dt gl).textures = gl.textures ∧
    (diffusionSetup vt dt gl).programs =
      modifyProgram vt.diffuseShaderID
        (fun prog => { prog with uniforms := diffusionUniforms dt prog.uniforms }) gl.programs := by
  refine ⟨?_, ?_, ?_, ?_, ?_, ?_, ?_, ?_⟩ <;>
    simp [diffusionSetup, glUseProgram, setUniform, glActiveTexture, glBindTexture3D,
      glBindImageTexture, GLState.log]
  funext q
  by_cases hq : q = vt.diffuseShaderID
  · rw [hq]
    cases h : gl.programs vt.diffuseShaderID <;> simp [modifyProgram, h, diffusionUniforms]
  · simp [modifyProgram, hq]

theorem diffusionPass_sameBindings (K : ShaderFile → Kernel) (vt : VoxelTexture) (dt : Val)
    (gl : GLState) : SameBindings (diffusionSetup vt dt gl) (diffusionPass K vt dt gl) := by
  rw [diffusionPass_eq]
  exact forN_invariant _ (SameBindings (diffusionSetup vt dt gl))
    (fun _ g hg => sameBindings_trans hg (body_sameBindings K _ _ _ g)) 15 0 _ (sameBindings_refl _)

theorem diffusionPass_textures_other (K : ShaderFile → Kernel) (vt : VoxelTexture) (dt : Val)
    (gl : GLState) (t : Nat) (ht : t ≠ stepTarget vt) :
    (diffusionPass K vt dt gl).textures t = gl.textures t := by
  rw [diffusionPass_eq]
  have h0 := diffusionSetup_fields vt dt gl
  have := forN_invariant
    (fun _ gl =>
      glMemoryBarrier (glDispatchCompute K (vt.dimXZ / 8) (vt.dimY / 8) (vt.dimXZ / 8) gl))
    (fun g => g.imageUnit 0 = stepTarget vt ∧ g.textures t = gl.textures t)
    (fun _ g hg => by
      refine ⟨?_, ?_⟩
      · rw [(body_sameBindings K _ _ _ g).2.2.1]; exact hg.1
      · rw [barrier_textures, dispatch_textures_other K _ _ _ g t (by rw [hg.1]; exact ht)]
        exact hg.2)
    15 0 (diffusionSetup vt dt gl) ⟨by rw [h0.2.1]; simp, by rw [h0.2.2.2.2.2.2.1]⟩
  exact this.2

theorem diffusionPass_texShape (K : ShaderFile → Kernel) (vt : VoxelTexture) (dt : Val)
    (gl : GLState) (t : Nat) :
    texShape (diffusionPass K vt dt gl) t = texShape gl t := by
  rw [diffusionPass_eq]
  have h0 := diffusionSetup_fields vt dt gl
  exact forN_invariant
    (fun _ gl =>
      glMemoryBarrier (glDispatchCompute K (vt.dimXZ / 8) (vt.dimY / 8) (vt.dimXZ / 8) gl))
    (fun g => texShape g t = texShape gl t)
    (fun _ g hg => by
      have : texShape (glMemoryBarrier (glDispatchCompute K (vt.dimXZ / 8) (vt.dimY / 8)
          (vt.dimXZ / 8) g)) t = texShape (glDispatchCompute K (vt.dimXZ / 8) (vt.dimY / 8)
          (vt.dimXZ / 8) g) t := by
        simp only [texShape, barrier_textures]
      show texShape (glMemoryBarrier (glDispatchCompute K (vt.dimXZ / 8) (vt.dimY / 8)
          (vt.dimXZ / 8) g)) t = texShape gl t
      rw [this, dispatch_texShape]; exact hg)
    15 0 (diffusionSetup vt dt gl) (by simp only [texShape, h0.2.2.2.2.2.2.1])

theorem diffusionUniforms_mu (dt : Val) (u : Uniforms) :
    (diffusionUniforms dt u).getFloat "mu_density" = 0 ∧
    (diffusionUniforms dt u).getFloat "mu_velocity" = 0 := by
  simp [diffusionUniforms, Uniforms.getFloat, Function.update_apply]

theorem diffusionPass_textures_zero (K : ShaderFile → Kernel) (vt : VoxelTexture) (dt : Val)
    (gl : GLState) (l : Bool)
    (hshape : programShape gl vt.diffuseShaderID = some (some ShaderFile.diffuse, l)) :
    (diffusionPass K vt dt gl).textures = gl.textures := by
  rw [diffusionPass_eq]
  obtain ⟨h1, -, -, -, -, -, h7, h8⟩ := diffusionSetup_fields vt dt gl
  obtain ⟨prog, hprog, hs⟩ : ∃ prog, gl.programs vt.diffuseShaderID = some prog ∧
      (prog.shader, prog.linked) = (some ShaderFile.diffuse, l) := by
    simpa [programShape] using hshape
  have hcur : (diffusionSetup vt dt gl).programs (diffusionSetup vt dt gl).currentProgram =
      some { shader := some ShaderFile.diffuse, linked := l,
             uniforms := diffusionUniforms dt prog.uniforms } := by
    rw [h1, h8]
    simp only [Prod.mk.injEq] at hs
    simp [modifyProgram, hprog, hs.1, hs.2]
  have := forN_invariant
    (fun _ gl =>
      glMemoryBarrier (glDispatchCompute K (vt.dimXZ / 8) (vt.dimY / 8) (vt.dimXZ / 8) gl))
    (fun g => SameBindings (diffusionSetup vt dt gl) g ∧ g.textures = gl.textures)
    (fun _ g hg => by
      refine ⟨sameBindings_trans hg.1 (body_sameBindings K _ _ _ g), ?_⟩
      rw [barrier_textures, dispatch_diffuse_zero K _ _ _ g l (diffusionUniforms dt prog.uniforms)
        (by rw [hg.1.1, hg.1.2.1]; exact hcur) (diffusionUniforms_mu dt _).1]
      exact hg.2)
    15 0 (diffusionSetup vt dt gl) ⟨sameBindings_refl _, h7⟩
  exact this.2

theorem advectionSetup_fields (vt : VoxelTexture) (gl : GLState) :
    (advectionSetup vt gl).currentProgram = vt.advectShaderID ∧
    (advectionSetup vt gl).imageUnit = gl.imageUnit ∧
    (advectionSetup vt gl).boundTex3D = gl.boundTex3D ∧
    (advectionSetup vt gl).lastTexture = gl.lastTexture ∧
    (advectionSetup vt gl).lastProgram = gl.lastProgram ∧
    (advectionSetup vt gl).textures = gl.textures ∧
    (advectionSetup vt gl).programs =
      modifyProgram vt.advectShaderID
        (fun prog => { prog with uniforms := advectionUniforms prog.uniforms }) gl.programs := by
  refine ⟨?_, ?_, ?_, ?_, ?_, ?_, ?_⟩ <;>
    simp [advectionSetup, glUseProgram, setUniform, GLState.log]
  funext q
  by_cases hq : q = vt.advectShaderID
  · rw [hq]
    cases h : gl.programs vt.advectShaderID <;> simp [modifyProgram, h, advectionUniforms]
  · simp [modifyProgram, hq]

theorem advectionPass_fields (K : ShaderFile → Kernel) (vt : VoxelTexture) (gl : GLState) :
    (advectionPass K vt gl).textures =
      (glDispatchCompute K (vt.dimXZ / 8) (vt.dimY / 8) (vt.dimXZ / 8)
        (advectionSetup vt gl)).textures ∧
    (advectionPass K vt gl).programs = (advectionSetup vt gl).programs ∧
    (advectionPass K vt gl).lastTexture = gl.lastTexture ∧
    (advectionPass K vt gl).lastProgram = gl.lastProgram := by
  refine ⟨?_, ?_, ?_, ?_⟩ <;>
    simp [advectionPass, advectionSetup, glUseProgram, setUniform, glBindTexture3D,
      glBindImageTexture, glMemoryBarrier, glDispatchCompute, GLState.log]

theorem dispatch_textures_congr (K : ShaderFile → Kernel) (gx gy gz : Nat) (g1 g2 : GLState)
    (hc : g1.programs g1.currentProgram = g2.programs g2.currentProgram)
    (hi : g1.imageUnit 0 = g2.imageUnit 0) (ht : g1.textures = g2.textures)
    (hb : g1.boundTex3D = g2.boundTex3D) :
    (glDispatchCompute K gx gy gz g1).textures = (glDispatchCompute K gx gy gz g2).textures := by
  simp only [glDispatchCompute, GLState.log, hc, hi, ht, hb]

theorem programShape_modify (progs : Nat → Option Program) (p q : Nat) (f : Uniforms → Uniforms) :
    Option.map (fun prog : Program => (prog.shader, prog.linked))
      (modifyProgram p (fun prog => { prog with uniforms := f prog.uniforms }) progs q) =
    Option.map (fun prog : Program => (prog.shader, prog.linked)) (progs q) := by
  by_cases h : q = p
  · cases hq : progs q <;> simp [modifyProgram, h, hq] <;> simp [← h, hq]
  · simp [modifyProgram, h]

/-- What one `simulationStep` leaves alone, in every state. -/
theorem simulationStep_frame (K : ShaderFile → Kernel) (vt : VoxelTexture) (a b : Vec3)
    (dt : Val) (gl : GLState) :
    (simulationStep K vt a b dt gl).2.lastTexture = gl.lastTexture ∧
    (simulationStep K vt a b dt gl).2.lastProgram = gl.lastProgram ∧
    (∀ p, programShape (simulationStep K vt a b dt gl).2 p = programShape gl p) ∧
    (∀ t, texShape (simulationStep K vt a b dt gl).2 t = texShape gl t) ∧
    (∀ t, t ≠ stepTarget vt → (simulationStep K vt a b dt gl).2.textures t = gl.textures t) := by
  obtain ⟨a1, a2, a3, a4⟩ := advectionPass_fields K vt (diffusionPass K vt dt gl)
  obtain ⟨s1, s2, s3, s4, s5, s6, s7⟩ := advectionSetup_fields vt (diffusionPass K vt dt gl)
  obtain ⟨d1, d2, d3, d4, d5, d6, d7, d8⟩ := diffusionSetup_fields vt dt gl
  obtain ⟨b1, b2, b3, b4, b5, b6, b7⟩ := diffusionPass_sameBindings K vt dt gl
  refine ⟨?_, ?_, ?_, ?_, ?_⟩
  · simp only [simulationStep]; rw [a3, b6, d5]
  · simp only [simulationStep]; rw [a4, b7, d6]
  · intro p
    simp only [simulationStep, programShape]
    rw [a2, s7, b1, d8, programShape_modify, programShape_modify]
  · intro t
    simp only [simulationStep]
    have : texShape (advectionPass K vt (diffusionPass K vt dt gl)) t =
        texShape (glDispatchCompute K (vt.dimXZ / 8) (vt.dimY / 8) (vt.dimXZ / 8)
          (advectionSetup vt (diffusionPass K vt dt gl))) t := by
      simp only [texShape, a1]
    rw [this, dispatch_texShape]
    have : texShape (advectionSetup vt (diffusionPass K vt dt gl)) t =
        texShape (diffusionPass K vt dt gl) t := by
      simp only [texShape, s6]
    rw [this, diffusionPass_texShape]
  · intro t ht
    simp only [simulationStep]
    rw [a1, dispatch_textures_other K _ _ _ _ t (by rw [s2, b3, d2]; simpa using ht), s6,
      diffusionPass_textures_other K vt dt gl t ht]

/-- The textures after a step do not depend on the `dt` argument, when the
diffusion program is the one made from the diffusion shader and is not the
advection program. -/
theorem simulationStep_textures_dt (K : ShaderFile → Kernel) (vt : VoxelTexture)
    (a b a' b' : Vec3) (dt dt' : Val) (gl : GLState) (l : Bool)
    (hne : vt.diffuseShaderID ≠ vt.advectShaderID)
    (hshape : programShape gl vt.diffuseShaderID = some (some ShaderFile.diffuse, l)) :
    (simulationStep K vt a b dt gl).2.textures = (simulationStep K vt a' b' dt' gl).2.textures := by
  have key : ∀ x : Val,
      (advectionSetup vt (diffusionPass K vt x gl)).programs
          (advectionSetup vt (diffusionPass K vt x gl)).currentProgram =
        modifyProgram vt.advectShaderID
          (fun prog => { prog with uniforms := advectionUniforms prog.uniforms }) gl.programs
          vt.advectShaderID ∧
      (advectionSetup vt (diffusionPass K vt x gl)).imageUnit =
        Function.update gl.imageUnit 0 (stepTarget vt) ∧
      (advectionSetup vt (diffusionPass K vt x gl)).textures = gl.textures ∧
      (advectionSetup vt (diffusionPass K vt x gl)).boundTex3D =
        Function.update gl.boundTex3D 0 (stepTarget vt) := by
    intro x
    obtain ⟨s1, s2, s3, s4, s5, s6, s7⟩ := advectionSetup_fields vt (diffusionPass K vt x gl)
    obtain ⟨d1, d2, d3, d4, d5, d6, d7, d8⟩ := diffusionSetup_fields vt x gl
    obtain ⟨b1, b2, b3, b4, b5, b6, b7⟩ := diffusionPass_sameBindings K vt x gl
    refine ⟨?_, ?_, ?_, ?_⟩
    · rw [s1, s7, b1, d8]
      simp [modifyProgram, Ne.symm hne]
    · rw [s2, b3, d2]
    · rw [s6, diffusionPass_textures_zero K vt x gl l hshape]
    · rw [s3, b4, d3]
  simp only [simulationStep]
  rw [(advectionPass_fields K vt _).1, (advectionPass_fields K vt _).1]
  apply dispatch_textures_congr
  · rw [(key dt).1, (key dt').1]
  · rw [(key dt).2.1, (key dt').2.1]
  · rw [(key dt).2.2.1, (key dt').2.2.1]
  · rw [(key dt).2.2.2, (key dt').2.2.2]

/-! ## Lemmas: invariants of runs -/

theorem consistent_new (gl0 : GLState) : Consistent (VoxelTexture.new, gl0) := by
  simp [Consistent, VoxelTexture.new]

theorem consistent_step {K : ShaderFile → Kernel} {s : VoxelTexture × GLState}
    (h : Consistent s) (a b : Vec3) (dt : Val) :
    Consistent (simulationStep K s.1 a b dt s.2) := by
  obtain ⟨h1, h2, h3, h4, h5⟩ := h
  have hf := (simulationStep_frame K s.1 a b dt s.2).1
  exact ⟨h1, h2, by rw [hf]; exact h3, by rw [hf]; exact h4, h5⟩

theorem ready_step {K : ShaderFile → Kernel} {s : VoxelTexture × GLState}
    (h : Ready s) (a b : Vec3) (dt : Val) :
    Ready (simulationStep K s.1 a b dt s.2) := by
  obtain ⟨h1, h2, h3, h4, h5, h6, h7, h8, h9⟩ := h
  obtain ⟨-, -, f3, f4, -⟩ := simulationStep_frame K s.1 a b dt s.2
  exact ⟨consistent_step h1 a b dt, h2, h3, h4, h5, h6, by rw [f3]; exact h7, by rw [f3]; exact h8,
    by rw [f4]; exact h9⟩

theorem consistent_init {s : VoxelTexture × GLState} (h : Consistent s) :
    ∃ s', init_textures s.1 s.2 = some s' ∧ Ready s' := by
  obtain ⟨d, s', -, -, hi, h1, h2, h3, h4, h5, h6, h7, h8, h9, h10, h11, h12, h13, h14, h15⟩ :=
    init_textures_spec s.1 s.2 h
  refine ⟨s', hi, ⟨h2, h3, h14, h15, ?_⟩, h4, h11, h12, h13, ?_, ?_, ?_, ?_⟩
  · intro he; exact absurd he h13
  · rw [h5, h6]; omega
  · simp [programShape, h5, h7]
  · simp [programShape, h6, h8]
  · simp [texShape, h9]

theorem ready_consistent {s : VoxelTexture × GLState} (h : Ready s) : Consistent s := h.1

theorem run_consistent (K : ShaderFile → Kernel) (ops : List Op) :
    ∀ s : VoxelTexture × GLState, Consistent s → ∃ s', run K s ops = some s' ∧ Consistent s' := by
  induction ops with
  | nil => intro s hs; exact ⟨s, rfl, hs⟩
  | cons op ops ih =>
    intro s hs
    rw [run_cons]
    cases op with
    | init =>
      obtain ⟨s1, h1, hr⟩ := consistent_init hs
      obtain ⟨s2, h2, hc⟩ := ih s1 (ready_consistent hr)
      exact ⟨s2, by simp only [applyOp, h1]; exact h2, hc⟩
    | step a b dt =>
      obtain ⟨s2, h2, hc⟩ := ih _ (consistent_step (K := K) hs a b dt)
      exact ⟨s2, by simp only [applyOp]; exact h2, hc⟩

theorem run_append (K : ShaderFile → Kernel) (ops ops' : List Op) :
    ∀ s s' : VoxelTexture × GLState, run K s ops = some s' →
      run K s (ops ++ ops') = run K s' ops' := by
  induction ops with
  | nil => intro s s' h; simp only [run, Option.some.injEq] at h; subst h; rfl
  | cons op ops ih =>
    intro s s' h
    rw [run_cons] at h
    rw [List.cons_append, run_cons]
    cases ha : applyOp K s op with
    | none => rw [ha] at h; exact absurd h (by simp)
    | some s1 =>
      rw [ha] at h
      exact ih s1 s' h

/-- Every run from a freshly constructed object that ends with `init_textures`
succeeds and ends in a ready state. -/
theorem run_init_ready (K : ShaderFile → Kernel) (gl0 : GLState) (pre : List Op) :
    ∃ s1, run K (VoxelTexture.new, gl0) (pre ++ [Op.init]) = some s1 ∧ Ready s1 := by
  obtain ⟨s0, h0, hc⟩ := run_consistent K pre _ (consistent_new gl0)
  obtain ⟨s1, h1, hr⟩ := consistent_init hc
  refine ⟨s1, ?_, hr⟩
  rw [run_append K pre [Op.init] _ s0 h0, run_cons]
  simp only [applyOp, h1, run]

theorem simulate_ready (K : ShaderFile → Kernel) (steps : List (Vec3 × Vec3 × Val)) :
    ∀ s : VoxelTexture × GLState, Ready s → Ready (simulate K s steps) := by
  induction steps with
  | nil => intro s hs; exact hs
  | cons a as ih =>
    intro s hs
    rw [simulate_cons]
    exact ih _ (ready_step hs a.1 a.2.1 a.2.2)

/-! ## Lemmas: uniforms after a step -/

theorem simulationStep_programs (K : ShaderFile → Kernel) (vt : VoxelTexture) (a b : Vec3)
    (dt : Val) (gl : GLState) :
    (simulationStep K vt a b dt gl).2.programs =
      modifyProgram vt.advectShaderID
        (fun prog => { prog with uniforms := advectionUniforms prog.uniforms })
        (modifyProgram vt.diffuseShaderID
          (fun prog => { prog with uniforms := diffusionUniforms dt prog.uniforms })
          gl.programs) := by
  simp only [simulationStep]
  rw [(advectionPass_fields K vt _).2.1, (advectionSetup_fields vt _).2.2.2.2.2.2,
    (diffusionPass_sameBindings K vt dt gl).1, (diffusionSetup_fields vt dt gl).2.2.2.2.2.2.2]

theorem diffusionPass_programs (K : ShaderFile → Kernel) (vt : VoxelTexture)
    (dt : Val) (gl : GLState) :
    (diffusionPass K vt dt gl).programs =
      modifyProgram vt.diffuseShaderID
        (fun prog => { prog with uniforms := diffusionUniforms dt prog.uniforms })
        gl.programs := by
  rw [(diffusionPass_sameBindings K vt dt gl).1, (diffusionSetup_fields vt dt gl).2.2.2.2.2.2.2]

theorem forN_fixed {σ : Type} (body : Nat → σ → σ) (s : σ) (h : ∀ i, body i s = s) :
    ∀ n start : Nat, forN body start n s = s := by
  intro n
  induction n with
  | zero => intro _; rfl
  | succ m ih => intro start; simp only [forN, h, ih]

/-! ## Lemmas: the buffers of a ready state -/

theorem generate_data_data_eq {vt vt' v v' : VoxelTexture} (hX : vt.dimXZ = vt'.dimXZ)
    (hY : vt.dimY = vt'.dimY) (h : generate_data vt = some v) (h' : generate_data vt' = some v') :
    v.data = v'.data := by
  unfold generate_data at h h'
  rw [← hX, ← hY] at h'
  cases hs : seedLoops vt.dimXZ vt.dimY (List.replicate (allocSize vt.dimXZ vt.dimY) 0) with
  | none => rw [hs] at h; exact absurd h (by simp)
  | some d =>
    rw [hs] at h h'
    simp only [Option.some.injEq] at h h'
    rw [← h, ← h']

theorem ready_stepTarget_eq {s : VoxelTexture × GLState} (h : Ready s) :
    stepTarget s.1 = s.1.previousTextureID ∧ stepOther s.1 = s.1.currentTextureID := by
  simp [stepTarget, stepOther, h.2.1]

theorem simulate_other_texture (K : ShaderFile → Kernel) (steps : List (Vec3 × Vec3 × Val)) :
    ∀ s : VoxelTexture × GLState, Ready s →
      (simulate K s steps).2.textures s.1.currentTextureID = s.2.textures s.1.currentTextureID := by
  induction steps with
  | nil => intro s _; rfl
  | cons a as ih =>
    intro s hs
    rw [simulate_cons]
    have h1 := ih _ (ready_step (K := K) hs a.1 a.2.1 a.2.2)
    rw [simulationStep_fst] at h1
    rw [h1]
    apply (simulationStep_frame K s.1 a.1 a.2.1 a.2.2 s.2).2.2.2.2
    rw [(ready_stepTarget_eq hs).1]
    exact Ne.symm hs.2.2.2.2.1

theorem events_stepCalls (vt : VoxelTexture) (dt : Val) (p0 img0 : Nat) :
    events p0 img0 (stepCalls vt dt) =
      (List.replicate 15
        [Event.dispatch vt.diffuseShaderID (stepTarget vt)
           (vt.dimXZ / 8) (vt.dimY / 8) (vt.dimXZ / 8),
         Event.barrier]).flatten ++
      [Event.dispatch vt.advectShaderID (stepTarget vt)
         (vt.dimXZ / 8) (vt.dimY / 8) (vt.dimXZ / 8),
       Event.barrier] := rfl

theorem boundTextures_stepCalls (vt : VoxelTexture) (dt : Val) :
    boundTextures (stepCalls vt dt) = [stepTarget vt, stepTarget vt, 0, 0] := rfl

/-! ## Lemmas: the density block -/

theorem seededOn_density_block {X Y : Nat} {d : List Val}
    (h : SeededOn X Y (fun _ _ _ => True) d) {n : Nat} (hn : n < cellCount X Y) :
    ∃ i j k, i < X ∧ j < Y ∧ k < X ∧ flatIndex X Y 0 i j k = n ∧
      d[n]? = some (seedDensity i j k) := by
  obtain ⟨c, i, j, k, hc, hi, hj, hk, he⟩ := flatIndex_surj (X := X) (Y := Y) (n := n) (by omega)
  have hb := flatIndex_block (c := c) hi hj hk
  rw [he] at hb
  have hc0 : c = 0 := by
    rcases Nat.eq_zero_or_pos c with h0 | h0
    · exact h0
    · have : 1 * cellCount X Y ≤ c * cellCount X Y := Nat.mul_le_mul_right _ h0
      omega
  subst hc0
  refine ⟨i, j, k, hi, hj, hk, he, ?_⟩
  have := h.2 i j k 0 hi hj hk (by decide) trivial
  rw [he] at this
  simpa [seedValue] using this

theorem seedDensity_ne_ten (i j k : Nat) : seedDensity i j k ≠ 10 ∧ seedDensity i j k ≠ -10 := by
  unfold seedDensity
  split <;> norm_num

/-! ## Lemmas: the loops of `generate_data` as a list of assignments -/

theorem runStores_append (ws vs : List (Nat × Val)) :
    ∀ d : List Val, runStores (ws ++ vs) d =
      match runStores ws d with
      | none => none
      | some d' => runStores vs d' := by
  induction ws with
  | nil => intro d; rfl
  | cons w ws ih =>
    intro d
    simp only [List.cons_append, runStores]
    cases h : store d w.1 w.2 with
    | none => rfl
    | some d' => exact ih d'

theorem writeCell_eq_runStores (X Y i j k : Nat) (d : List Val) :
    writeCell X Y i j k d = runStores (writeCellStores X Y i j k) d := by
  simp only [writeCell, writeCellStores, runStores]
  cases h0 : store d (densityIndex X Y i j k) (seedDensity i j k) with
  | none => rfl
  | some d0 =>
    simp only
    cases h1 : store d0 (channelIndex X Y 1 i j k) (seedVelocity i j k) with
    | none => rfl
    | some d1 =>
      simp only
      cases h2 : store d1 (channelIndex X Y 2 i j k) (-(seedVelocity i j k)) with
      | none => rfl
      | some d2 =>
        simp only
        cases h3 : store d2 (channelIndex X Y 3 i j k) (seedVelocity i j k) with
        | none => rfl
        | some d3 => rfl

theorem loopFrom_eq_runStores (body : Nat → List Val → Option (List Val))
    (ws : Nat → List (Nat × Val)) (h : ∀ i d, body i d = runStores (ws i) d) :
    ∀ (fuel start : Nat) (d : List Val),
      loopFrom body start fuel d = runStores ((List.range' start fuel).flatMap ws) d := by
  intro fuel
  induction fuel with
  | zero => intro start d; rfl
  | succ f ih =>
    intro start d
    rw [List.range'_succ, List.flatMap_cons, runStores_append, loopFrom, h]
    cases hr : runStores (ws start) d with
    | none => rfl
    | some d' => exact ih (start + 1) d'

theorem forLoop_eq_runStores (n : Nat) (body : Nat → List Val → Option (List Val))
    (ws : Nat → List (Nat × Val)) (h : ∀ i d, body i d = runStores (ws i) d) (d : List Val) :
    forLoop n body d = runStores ((List.range n).flatMap ws) d := by
  rw [forLoop, loopFrom_eq_runStores body ws h, List.range_eq_range']

theorem seedLoops_eq_runStores (X Y : Nat) (d : List Val) :
    seedLoops X Y d = runStores (seedStores X Y) d := by
  unfold seedLoops seedStores
  apply forLoop_eq_runStores
  intro i d
  apply forLoop_eq_runStores
  intro j d
  apply forLoop_eq_runStores
  intro k d
  exact writeCell_eq_runStores X Y i j k d

theorem generate_data_eq_runStores (vt : VoxelTexture) :
    generate_data vt =
      (runStores (seedStores vt.dimXZ vt.dimY)
        (List.replicate (allocSize vt.dimXZ vt.dimY) 0)).map (fun d => { vt with data := d }) := by
  unfold generate_data
  rw [seedLoops_eq_runStores]
  cases runStores (seedStores vt.dimXZ vt.dimY) (List.replicate (allocSize vt.dimXZ vt.dimY) 0) <;>
    rfl

theorem mem_seedStores {X Y : Nat} {w : Nat × Val} :
    w ∈ seedStores X Y ↔ ∃ i j k, i < X ∧ j < Y ∧ k < X ∧ w ∈ writeCellStores X Y i j k := by
  simp only [seedStores, List.mem_flatMap, List.mem_range]
  constructor
  · rintro ⟨i, hi, j, hj, k, hk, hw⟩
    exact ⟨i, j, k, hi, hj, hk, hw⟩
  · rintro ⟨i, j, k, hi, hj, hk, hw⟩
    exact ⟨i, hi, j, hj, k, hk, hw⟩

theorem length_flatMap_const {α β : Type} (l : List α) (f : α → List β) (c : Nat)
    (h : ∀ a ∈ l, (f a).length = c) : (l.flatMap f).length = l.length * c := by
  induction l with
  | nil => simp
  | cons a l ih =>
    rw [List.flatMap_cons, List.length_append, h a (List.mem_cons_self _ _),
      ih (fun b hb => h b (List.mem_cons_of_mem _ hb)), List.length_cons]
    ring

theorem length_seedStores (X Y : Nat) : (seedStores X Y).length = 4 * cellCount X Y := by
  unfold seedStores
  rw [length_flatMap_const _ _ (Y * (X * 4)), List.length_range]
  · unfold cellCount; ring
  · intro i _
    rw [length_flatMap_const _ _ (X * 4), List.length_range]
    intro j _
    rw [length_flatMap_const _ _ 4, List.length_range]
    intro k _
    rfl

theorem writeCellStores_no_wrap {X Y i j k : Nat} (H : 4 * cellCount X Y < 2 ^ 32)
    (hi : i < X) (hj : j < Y) (hk : k < X) :
    writeCellStores X Y i j k =
      [(flatIndex X Y 0 i j k, seedValue 0 i j k), (flatIndex X Y 1 i j k, seedValue 1 i j k),
       (flatIndex X Y 2 i j k, seedValue 2 i j k), (flatIndex X Y 3 i j k, seedValue 3 i j k)] := by
  unfold writeCellStores
  rw [densityIndex_eq H hi hj hk, channelIndex_eq H hi hj hk (by omega),
    channelIndex_eq H hi hj hk (by omega), channelIndex_eq H hi hj hk (by omega)]
  simp [seedValue]

theorem seedStores_cell {X Y : Nat} (H : 4 * cellCount X Y < 2 ^ 32) {w : Nat × Val}
    (hw : w ∈ seedStores X Y) :
    ∃ c i j k, c < 4 ∧ i < X ∧ j < Y ∧ k < X ∧
      w = (flatIndex X Y c i j k, seedValue c i j k) := by
  obtain ⟨i, j, k, hi, hj, hk, hmem⟩ := mem_seedStores.mp hw
  rw [writeCellStores_no_wrap H hi hj hk] at hmem
  simp only [List.mem_cons, List.mem_singleton, List.not_mem_nil, or_false] at hmem
  rcases hmem with h | h | h | h
  · exact ⟨0, i, j, k, by decide, hi, hj, hk, h⟩
  · exact ⟨1, i, j, k, by decide, hi, hj, hk, h⟩
  · exact ⟨2, i, j, k, by decide, hi, hj, hk, h⟩
  · exact ⟨3, i, j, k, by decide, hi, hj, hk, h⟩

theorem flatIndex_mem_seedStores {X Y c i j k : Nat} (H : 4 * cellCount X Y < 2 ^ 32)
    (hc : c < 4) (hi : i < X) (hj : j < Y) (hk : k < X) :
    (flatIndex X Y c i j k, seedValue c i j k) ∈ seedStores X Y := by
  refine mem_seedStores.mpr ⟨i, j, k, hi, hj, hk, ?_⟩
  rw [writeCellStores_no_wrap H hi hj hk]
  interval_cases c <;> simp

theorem seedStores_indices_perm {X Y : Nat} (H : 4 * cellCount X Y < 2 ^ 32) :
    (List.range (4 * cellCount X Y)).Perm ((seedStores X Y).map Prod.fst) := by
  apply List.Subperm.perm_of_length_le
  · apply List.subperm_of_subset (List.nodup_range _)
    intro n hn
    rw [List.mem_range] at hn
    obtain ⟨c, i, j, k, hc, hi, hj, hk, he⟩ := flatIndex_surj hn
    rw [List.mem_map]
    exact ⟨(flatIndex X Y c i j k, seedValue c i j k),
      flatIndex_mem_seedStores H hc hi hj hk, he⟩
  · rw [List.length_map, length_seedStores, List.length_range]

/-! ## Claims -/

/-- C1 (seed invariant).  For the default 128 x 128 x 128 lattice `generate_data`
succeeds with a vector of `4 * 128^3` entries in which, for every cell `(i,j,k)`,
the density entry `data[i + j*128 + k*128*128]` is 1 if `32 <= i,j,k < 96` and 0
otherwise, and the entries of channels 1, 2, 3 (offsets `c * 128^3`) are
`(10, -10, 10)` if `40 <= i,j,k < 88` and `(0, 0, 0)` otherwise. -/
theorem seed_invariant_default (vt : VoxelTexture) (hX : vt.dimXZ = 128) (hY : vt.dimY = 128)
    (i j k : Nat) (hi : i < 128) (hj : j < 128) (hk : k < 128) :
    ∃ vt', generate_data vt = some vt' ∧ vt'.data.length = 4 * 128 ^ 3 ∧
      vt'.data[i + j * 128 + k * 128 * 128]? =
        some (if 32 ≤ i ∧ i < 96 ∧ 32 ≤ j ∧ j < 96 ∧ 32 ≤ k ∧ k < 96 then 1 else 0) ∧
      vt'.data[i + j * 128 + k * 128 * 128 + 1 * 128 ^ 3]? =
        some (if 40 ≤ i ∧ i < 88 ∧ 40 ≤ j ∧ j < 88 ∧ 40 ≤ k ∧ k < 88 then 10 else 0) ∧
      vt'.data[i + j * 128 + k * 128 * 128 + 2 * 128 ^ 3]? =
        some (if 40 ≤ i ∧ i < 88 ∧ 40 ≤ j ∧ j < 88 ∧ 40 ≤ k ∧ k < 88 then (-10 : Val) else 0) ∧
      vt'.data[i + j * 128 + k * 128 * 128 + 3 * 128 ^ 3]? =
        some (if 40 ≤ i ∧ i < 88 ∧ 40 ≤ j ∧ j < 88 ∧ 40 ≤ k ∧ k < 88 then 10 else 0) := by
  have H : 4 * cellCount vt.dimXZ vt.dimY < 2 ^ 32 := by rw [hX, hY]; decide
  obtain ⟨d, hgen, hlen, hval⟩ := generate_data_spec vt H
  rw [hX, hY] at hlen hval
  have hN : cellCount 128 128 = 128 ^ 3 := by decide
  refine ⟨_, hgen, ?_, ?_, ?_, ?_, ?_⟩
  · simpa [hN] using hlen
  · have := hval i j k 0 hi hj hk (by decide) trivial
    simpa [flatIndex, seedValue, seedDensity] using this
  · have := hval i j k 1 hi hj hk (by decide) trivial
    simpa [flatIndex, seedValue, seedVelocity, hN] using this
  · have := hval i j k 2 hi hj hk (by decide) trivial
    rw [show flatIndex 128 128 2 i j k = i + j * 128 + k * 128 * 128 + 2 * 128 ^ 3 by
      simp [flatIndex, hN]] at this
    rw [this]
    by_cases h : 40 ≤ i ∧ i < 88 ∧ 40 ≤ j ∧ j < 88 ∧ 40 ≤ k ∧ k < 88
    · simp [seedValue, seedVelocity, h]
    · simp [seedValue, seedVelocity, h]
  · have := hval i j k 3 hi hj hk (by decide) trivial
    simpa [flatIndex, seedValue, seedVelocity, hN] using this

/-- Witness for C1: the cell (40,40,40) of the default object, which lies in both
seeded cubes. -/
theorem seed_invariant_default_witness :
    ∃ vt', generate_data VoxelTexture.new = some vt' ∧ vt'.data.length = 4 * 128 ^ 3 ∧
      vt'.data[40 + 40 * 128 + 40 * 128 * 128]? =
        some (if 32 ≤ 40 ∧ 40 < 96 ∧ 32 ≤ 40 ∧ 40 < 96 ∧ 32 ≤ 40 ∧ 40 < 96 then 1 else 0) ∧
      vt'.data[40 + 40 * 128 + 40 * 128 * 128 + 1 * 128 ^ 3]? =
        some (if 40 ≤ 40 ∧ 40 < 88 ∧ 40 ≤ 40 ∧ 40 < 88 ∧ 40 ≤ 40 ∧ 40 < 88 then 10 else 0) ∧
      vt'.data[40 + 40 * 128 + 40 * 128 * 128 + 2 * 128 ^ 3]? =
        some (if 40 ≤ 40 ∧ 40 < 88 ∧ 40 ≤ 40 ∧ 40 < 88 ∧ 40 ≤ 40 ∧ 40 < 88 then (-10 : Val) else 0) ∧
      vt'.data[40 + 40 * 128 + 40 * 128 * 128 + 3 * 128 ^ 3]? =
        some (if 40 ≤ 40 ∧ 40 < 88 ∧ 40 ≤ 40 ∧ 40 < 88 ∧ 40 ≤ 40 ∧ 40 < 88 then 10 else 0) :=
  seed_invariant_default VoxelTexture.new rfl rfl 40 40 40 (by decide) (by decide) (by decide)

/-- C2 as stated fails: for the positive dimensions `dimXZ = dimY = 1024` the
32-bit product `dimXZ * dimY * dimXZ * 4` wraps to 0 although `4 * N = 2^32`, so
the vector is empty, the first write is out of bounds and `generate_data` yields
no array of `4 * N` values. -/
theorem flat_layout_wraps_at_1024 :
    0 < 1024 ∧ 4 * cellCount 1024 1024 = 2 ^ 32 ∧ allocSize 1024 1024 = 0 ∧
      generate_data { VoxelTexture.new with dimXZ := 1024, dimY := 1024 } = none ∧
      ¬ ∃ vt', generate_data { VoxelTexture.new with dimXZ := 1024, dimY := 1024 } = some vt' ∧
          vt'.data.length = 4 * cellCount 1024 1024 := by
  have hnone : generate_data { VoxelTexture.new with dimXZ := 1024, dimY := 1024 } = none := by
    have ha : allocSize 1024 1024 = 0 := by decide
    have hl : seedLoops 1024 1024 [] = none := by
      unfold seedLoops
      apply forLoop_fail_first _ _ _ (by decide)
      apply forLoop_fail_first _ _ _ (by decide)
      apply forLoop_fail_first _ _ _ (by decide)
      simp [writeCell, store]
    simp [generate_data, ha, hl]
  refine ⟨by decide, by decide, by decide, hnone, ?_⟩
  rintro ⟨vt', h, -⟩
  rw [hnone] at h
  exact Option.noConfusion h

/-- C2 (amended).  For dimensions (in particular positive ones) whose total `4 * N`
fits the 32-bit index type, `generate_data` yields an array of exactly `4 * N`
values in which the entry at `i + j*sizeX + k*sizeX*sizeY + c*N` is the value
seeded for cell `(i,j,k)` in channel `c`; every index it writes is that flat
index; the map sends the cells of channel `c` into the block `[c*N, (c+1)*N)`
(so every write is in bounds), is injective, and reaches every position of
every block.  The loops of `generate_data` are exactly the assignments of the
list `seedStores`, performed in order on the zero-filled vector; each of them
writes the seeded value of one cell and channel at its flat index, there are
`4 * N` of them, all in bounds, and every array position is assigned exactly
once. -/
theorem flat_layout_no_wrap (vt : VoxelTexture)
    (H : 4 * cellCount vt.dimXZ vt.dimY < 2 ^ 32) :
    (∃ d, generate_data vt = some { vt with data := d } ∧
        d.length = 4 * cellCount vt.dimXZ vt.dimY ∧
        ∀ c i j k, c < 4 → i < vt.dimXZ → j < vt.dimY → k < vt.dimXZ →
          d[flatIndex vt.dimXZ vt.dimY c i j k]? = some (seedValue c i j k)) ∧
    (∀ i j k, i < vt.dimXZ → j < vt.dimY → k < vt.dimXZ →
        densityIndex vt.dimXZ vt.dimY i j k = flatIndex vt.dimXZ vt.dimY 0 i j k ∧
        ∀ c, c < 4 → channelIndex vt.dimXZ vt.dimY c i j k = flatIndex vt.dimXZ vt.dimY c i j k) ∧
    (∀ c i j k, c < 4 → i < vt.dimXZ → j < vt.dimY → k < vt.dimXZ →
        c * cellCount vt.dimXZ vt.dimY ≤ flatIndex vt.dimXZ vt.dimY c i j k ∧
        flatIndex vt.dimXZ vt.dimY c i j k < (c + 1) * cellCount vt.dimXZ vt.dimY ∧
        flatIndex vt.dimXZ vt.dimY c i j k < 4 * cellCount vt.dimXZ vt.dimY) ∧
    (∀ c i j k c' i' j' k', i < vt.dimXZ → j < vt.dimY → k < vt.dimXZ →
        i' < vt.dimXZ → j' < vt.dimY → k' < vt.dimXZ →
        flatIndex vt.dimXZ vt.dimY c i j k = flatIndex vt.dimXZ vt.dimY c' i' j' k' →
        c = c' ∧ i = i' ∧ j = j' ∧ k = k') ∧
    (∀ n, n < 4 * cellCount vt.dimXZ vt.dimY →
        ∃ c i j k, c < 4 ∧ i < vt.dimXZ ∧ j < vt.dimY ∧ k < vt.dimXZ ∧
          flatIndex vt.dimXZ vt.dimY c i j k = n ∧
          c * cellCount vt.dimXZ vt.dimY ≤ n ∧ n < (c + 1) * cellCount vt.dimXZ vt.dimY) ∧
    generate_data vt =
      (runStores (seedStores vt.dimXZ vt.dimY)
        (List.replicate (allocSize vt.dimXZ vt.dimY) 0)).map (fun d => { vt with data := d }) ∧
    (∀ i j k, writeCell vt.dimXZ vt.dimY i j k =
        runStores (writeCellStores vt.dimXZ vt.dimY i j k)) ∧
    (∀ w, w ∈ seedStores vt.dimXZ vt.dimY →
        ∃ c i j k, c < 4 ∧ i < vt.dimXZ ∧ j < vt.dimY ∧ k < vt.dimXZ ∧
          w = (flatIndex vt.dimXZ vt.dimY c i j k, seedValue c i j k)) ∧
    (∀ c i j k, c < 4 → i < vt.dimXZ → j < vt.dimY → k < vt.dimXZ →
        (flatIndex vt.dimXZ vt.dimY c i j k, seedValue c i j k) ∈
          seedStores vt.dimXZ vt.dimY) ∧
    (seedStores vt.dimXZ vt.dimY).length = 4 * cellCount vt.dimXZ vt.dimY ∧
    (∀ n, n ∈ (seedStores vt.dimXZ vt.dimY).map Prod.fst →
        n < 4 * cellCount vt.dimXZ vt.dimY) ∧
    (∀ n, n < 4 * cellCount vt.dimXZ vt.dimY →
        ((seedStores vt.dimXZ vt.dimY).map Prod.fst).count n = 1) := by
  have hperm := seedStores_indices_perm H
  refine ⟨?_, ?_, ?_, ?_, ?_, generate_data_eq_runStores vt, ?_, ?_, ?_,
    length_seedStores _ _, ?_, ?_⟩
  · obtain ⟨d, h1, h2⟩ := generate_data_spec vt H
    exact ⟨d, h1, h2.1, fun c i j k hc hi hj hk => h2.2 i j k c hi hj hk hc trivial⟩
  · intro i j k hi hj hk
    exact ⟨densityIndex_eq H hi hj hk, fun c hc => channelIndex_eq H hi hj hk hc⟩
  · intro c i j k hc hi hj hk
    exact ⟨(flatIndex_block hi hj hk).1, (flatIndex_block hi hj hk).2, flatIndex_lt hi hj hk hc⟩
  · intro c i j k c' i' j' k' hi hj hk hi' hj' hk' h
    exact flatIndex_inj hi hj hk hi' hj' hk' h
  · intro n hn
    obtain ⟨c, i, j, k, hc, hi, hj, hk, h⟩ := flatIndex_surj hn
    have hb := flatIndex_block (c := c) hi hj hk
    rw [h] at hb
    exact ⟨c, i, j, k, hc, hi, hj, hk, h, hb.1, hb.2⟩
  · intro i j k
    funext d
    exact writeCell_eq_runStores _ _ i j k d
  · intro w hw
    exact seedStores_cell H hw
  · intro c i j k hc hi hj hk
    exact flatIndex_mem_seedStores H hc hi hj hk
  · intro n hn
    have := hperm.mem_iff.mpr hn
    exact List.mem_range.mp this
  · intro n hn
    rw [← hperm.count_eq n]
    exact List.count_eq_one_of_mem (List.nodup_range _) (List.mem_range.mpr hn)

/-- Witness for the amended C2: the default 128 x 128 x 128 object, whose array has
`4 * 128^3` entries, each seeded as its cell and channel say and each assigned
exactly once (position 0 for instance). -/
theorem flat_layout_no_wrap_witness :
    (0 < VoxelTexture.new.dimXZ ∧ 0 < VoxelTexture.new.dimY ∧
      4 * cellCount VoxelTexture.new.dimXZ VoxelTexture.new.dimY < 2 ^ 32) ∧
    (∃ d, generate_data VoxelTexture.new = some { VoxelTexture.new with data := d } ∧
        d.length = 4 * cellCount VoxelTexture.new.dimXZ VoxelTexture.new.dimY ∧
        ∀ c i j k, c < 4 → i < VoxelTexture.new.dimXZ → j < VoxelTexture.new.dimY →
          k < VoxelTexture.new.dimXZ →
          d[flatIndex VoxelTexture.new.dimXZ VoxelTexture.new.dimY c i j k]? =
            some (seedValue c i j k)) ∧
    (0 < 4 * cellCount VoxelTexture.new.dimXZ VoxelTexture.new.dimY →
      ((seedStores VoxelTexture.new.dimXZ VoxelTexture.new.dimY).map Prod.fst).count 0 = 1) :=
  ⟨⟨by decide, by decide, by decide⟩,
    (flat_layout_no_wrap VoxelTexture.new (by decide)).1,
    (flat_layout_no_wrap VoxelTexture.new (by decide)).2.2.2.2.2.2.2.2.2.2.2 0⟩

/-- C3 (no-swap aliasing).  Take any state produced by `init_textures` (at the end
of any run of a freshly constructed object) and any sequence of `simulationStep`
calls with arbitrary arguments: afterwards the swap flag is still false, both
texture identifiers are unchanged, and `getTextureID` returns the same buffer as
right after the initialisation. -/
theorem no_swap_aliasing (K : ShaderFile → Kernel) (gl0 : GLState) (pre : List Op)
    (steps : List (Vec3 × Vec3 × Val)) :
    ∃ s1, run K (VoxelTexture.new, gl0) (pre ++ [Op.init]) = some s1 ∧
      s1.1.swap = false ∧
      (simulate K s1 steps).1.swap = false ∧
      (simulate K s1 steps).1.previousTextureID = s1.1.previousTextureID ∧
      (simulate K s1 steps).1.currentTextureID = s1.1.currentTextureID ∧
      getTextureID (simulate K s1 steps).1 = getTextureID s1.1 := by
  obtain ⟨s1, h1, hr⟩ := run_init_ready K gl0 pre
  refine ⟨s1, h1, hr.2.1, ?_, ?_, ?_, ?_⟩ <;> rw [simulate_fst]
  exact hr.2.1

/-- C4 (step pipeline ordering).  For every state and all arguments, the calls one
`simulationStep` adds to the record are: the set-up of the diffusion program, 15
times a dispatch immediately followed by a memory barrier, the set-up of the
advection program, one dispatch immediately followed by one barrier, and the
release of the bindings.  Replayed, the record gives exactly 15 dispatches of the
diffusion program, each followed by a barrier, then one dispatch of the advection
program followed by a barrier; every dispatch is directly followed by a barrier
and the last event is a barrier.  Neither list depends on `dt` except for the
value of the `dt` uniform of the diffusion program. -/
theorem step_pipeline_order (K : ShaderFile → Kernel) (vt : VoxelTexture) (a b : Vec3)
    (dt : Val) (gl : GLState) (p0 img0 : Nat) :
    (simulationStep K vt a b dt gl).2.calls = gl.calls ++ stepCalls vt dt ∧
    stepCalls vt dt =
      [GLCall.useProgram vt.diffuseShaderID,
       GLCall.setUniform vt.diffuseShaderID "dt" (UVal.float dt),
       GLCall.setUniform vt.diffuseShaderID "mu_density" (UVal.float 0),
       GLCall.setUniform vt.diffuseShaderID "mu_velocity" (UVal.float 0),
       GLCall.setUniform vt.diffuseShaderID "u_inputImg" (UVal.int 0),
       GLCall.activeTexture 0,
       GLCall.bindTexture3D (stepTarget vt),
       GLCall.bindImageTexture 0 (stepTarget vt)] ++
      (List.replicate 15
         [GLCall.dispatchCompute (vt.dimXZ / 8) (vt.dimY / 8) (vt.dimXZ / 8),
          GLCall.memoryBarrier]).flatten ++
      [GLCall.useProgram vt.advectShaderID,
       GLCall.setUniform vt.advectShaderID "dt" (UVal.float (1 / 100)),
       GLCall.setUniform vt.advectShaderID "u_inputImg" (UVal.int 0),
       GLCall.setUniform vt.advectShaderID "u_velocity" (UVal.int 0),
       GLCall.dispatchCompute (vt.dimXZ / 8) (vt.dimY / 8) (vt.dimXZ / 8),
       GLCall.memoryBarrier,
       GLCall.bindImageTexture 0 0,
       GLCall.bindTexture3D 0,
       GLCall.useProgram 0] ∧
    events p0 img0 (stepCalls vt dt) =
      (List.replicate 15
        [Event.dispatch vt.diffuseShaderID (stepTarget vt)
           (vt.dimXZ / 8) (vt.dimY / 8) (vt.dimXZ / 8),
         Event.barrier]).flatten ++
      [Event.dispatch vt.advectShaderID (stepTarget vt)
         (vt.dimXZ / 8) (vt.dimY / 8) (vt.dimXZ / 8),
       Event.barrier] ∧
    (events p0 img0 (stepCalls vt dt)).length = 32 ∧
    (∀ n p img gx gy gz,
      (events p0 img0 (stepCalls vt dt))[n]? = some (Event.dispatch p img gx gy gz) →
      (events p0 img0 (stepCalls vt dt))[n + 1]? = some Event.barrier) ∧
    (events p0 img0 (stepCalls vt dt)).getLast? = some Event.barrier := by
  have hev : events p0 img0 (stepCalls vt dt) =
      (List.replicate 15
        [Event.dispatch vt.diffuseShaderID (stepTarget vt)
           (vt.dimXZ / 8) (vt.dimY / 8) (vt.dimXZ / 8),
         Event.barrier]).flatten ++
      [Event.dispatch vt.advectShaderID (stepTarget vt)
         (vt.dimXZ / 8) (vt.dimY / 8) (vt.dimXZ / 8),
       Event.barrier] := rfl
  refine ⟨simulationStep_calls K vt a b dt gl, rfl, hev, ?_, ?_, ?_⟩
  · rw [hev]; rfl
  · intro n p img gx gy gz h
    rw [hev] at h ⊢
    have hn : n < 32 := by
      by_contra hc
      rw [List.getElem?_eq_none_iff.mpr (by simp; omega)] at h
      exact absurd h (by simp)
    interval_cases n <;> first | rfl | exact absurd h (by simp [List.replicate, List.flatten])
  · rw [hev]; rfl

/-- C5 (advection time step independent of `dt`).  In every state reached by a
run that initialised the object, two `simulationStep` calls that differ only in
their arguments (in particular `dt = 0.05` and `dt = 500`) leave the same
contents in every texture, whatever the advection kernel computes from its
uniforms and the bound texture; and after either call the `dt` uniform of the
advection program is the constant 0.01. -/
theorem advection_dt_independent (K : ShaderFile → Kernel) (gl0 : GLState) (pre : List Op)
    (steps : List (Vec3 × Vec3 × Val)) (a b a' b' : Vec3) (dt dt' : Val) :
    ∃ s1, run K (VoxelTexture.new, gl0) (pre ++ [Op.init]) = some s1 ∧
      (simulationStep K (simulate K s1 steps).1 a b dt (simulate K s1 steps).2).2.textures =
        (simulationStep K (simulate K s1 steps).1 a' b' dt' (simulate K s1 steps).2).2.textures ∧
      (simulationStep K (simulate K s1 steps).1 a b (1 / 20) (simulate K s1 steps).2).2.textures =
        (simulationStep K (simulate K s1 steps).1 a b 500 (simulate K s1 steps).2).2.textures ∧
      ((simulationStep K (simulate K s1 steps).1 a b dt (simulate K s1 steps).2).2.programs
          (simulate K s1 steps).1.advectShaderID).map (fun prog => prog.uniforms "dt") =
        some (some (UVal.float (1 / 100))) ∧
      GLCall.setUniform (simulate K s1 steps).1.advectShaderID "dt" (UVal.float (1 / 100)) ∈
        stepCalls (simulate K s1 steps).1 dt := by
  obtain ⟨s1, h1, hr⟩ := run_init_ready K gl0 pre
  have hs := simulate_ready K steps s1 hr
  obtain ⟨-, -, -, -, -, hne, hd, ha, -⟩ := hs
  refine ⟨s1, h1, ?_, ?_, ?_, ?_⟩
  · exact simulationStep_textures_dt K _ a b a' b' dt dt' _ true hne hd
  · exact simulationStep_textures_dt K _ a b a b (1 / 20) 500 _ true hne hd
  · rw [simulationStep_programs]
    obtain ⟨prog, hp, -⟩ : ∃ prog, (simulate K s1 steps).2.programs
        (simulate K s1 steps).1.advectShaderID = some prog ∧
        (prog.shader, prog.linked) = (some ShaderFile.advect, true) := by
      simpa [programShape] using ha
    simp [modifyProgram, Ne.symm hne, hp, advectionUniforms, Function.update_apply]
  · simp [stepCalls]

/-- C6 (idempotence at zero rate).  In every state reached by a run that
initialised the object, the diffusion part of `simulationStep` leaves both rate
uniforms of the diffusion program at 0.0 and leaves the contents of every
texture unchanged; and on any channel-major field, 15 iterations of the
relaxation with both rates 0.0 return the field unchanged, for every cell of
every channel and every `dt`. -/
theorem diffusion_identity_at_zero_rate (K : ShaderFile → Kernel) (gl0 : GLState)
    (pre : List Op) (steps : List (Vec3 × Vec3 × Val)) (dt : Val)
    (sx sy sz : Nat) (f : List Val) :
    ∃ s1, run K (VoxelTexture.new, gl0) (pre ++ [Op.init]) = some s1 ∧
      ((diffusionPass K (simulate K s1 steps).1 dt (simulate K s1 steps).2).programs
          (simulate K s1 steps).1.diffuseShaderID).map
            (fun prog => (prog.uniforms "mu_density", prog.uniforms "mu_velocity")) =
        some (some (UVal.float 0), some (UVal.float 0)) ∧
      GLCall.setUniform (simulate K s1 steps).1.diffuseShaderID "mu_density" (UVal.float 0) ∈
        stepCalls (simulate K s1 steps).1 dt ∧
      GLCall.setUniform (simulate K s1 steps).1.diffuseShaderID "mu_velocity" (UVal.float 0) ∈
        stepCalls (simulate K s1 steps).1 dt ∧
      (diffusionPass K (simulate K s1 steps).1 dt (simulate K s1 steps).2).textures =
        (simulate K s1 steps).2.textures ∧
      forN (fun _ g => diffuseField sx sy sz 0 0 dt g) 0 15 f = f := by
  obtain ⟨s1, h1, hr⟩ := run_init_ready K gl0 pre
  have hs := simulate_ready K steps s1 hr
  obtain ⟨-, -, -, -, -, hne, hd, ha, -⟩ := hs
  refine ⟨s1, h1, ?_, ?_, ?_, ?_, ?_⟩
  · rw [diffusionPass_programs]
    obtain ⟨prog, hp, -⟩ : ∃ prog, (simulate K s1 steps).2.programs
        (simulate K s1 steps).1.diffuseShaderID = some prog ∧
        (prog.shader, prog.linked) = (some ShaderFile.diffuse, true) := by
      simpa [programShape] using hd
    simp [modifyProgram, hp, diffusionUniforms, Function.update_apply]
  · simp [stepCalls]
  · simp [stepCalls]
  · exact diffusionPass_textures_zero K _ dt _ true hd
  · exact forN_fixed _ f (fun _ => diffuseField_zero sx sy sz dt f) 15 0

/-- C7 as stated fails.  After `init_textures` on a freshly constructed object the
seeded array holds the velocity 10 at cell (40,40,40) of channel 1, but the image
of the previous texture has only `128^3` texels (the array has `4 * 128^3`
entries), so it is not the seeded configuration; and the image of the current
texture was allocated without data, so it is not an image of zeros. -/
theorem init_uploads_less_than_seed :
    ∃ s', init_textures VoxelTexture.new GLState.initial = some s' ∧
      s'.1.data.length = 4 * 128 ^ 3 ∧
      s'.1.data[40 + 40 * 128 + 40 * 128 * 128 + 1 * 128 ^ 3]? = some 10 ∧
      (∃ t, s'.2.textures s'.1.previousTextureID =
          some { width := 128, height := 128, depth := 128, texels := some t } ∧
        t.length = 128 ^ 3 ∧ t ≠ s'.1.data) ∧
      s'.2.textures s'.1.currentTextureID =
        some { width := 128, height := 128, depth := 128, texels := none } ∧
      s'.2.textures s'.1.currentTextureID ≠
        some { width := 128, height := 128, depth := 128,
               texels := some (List.replicate (128 ^ 3) 0) } := by
  obtain ⟨d, s', hseed, -, hi, h1, h2, h3, h4, h5, h6, h7, h8, h9, h10, -⟩ :=
    init_textures_spec VoxelTexture.new GLState.initial (consistent_new _)
  have hN : cellCount 128 128 = 128 ^ 3 := by decide
  have hlen : d.length = 4 * 128 ^ 3 := by rw [hseed.1, hN]
  refine ⟨s', hi, by rw [h1, hlen], ?_, ⟨d.take (cellCount 128 128), h9, ?_, ?_⟩, h10, ?_⟩
  · rw [h1]
    have := hseed.2 40 40 40 1 (by decide) (by decide) (by decide) (by decide) trivial
    simpa [flatIndex, seedValue, seedVelocity, hN] using this
  · rw [List.length_take, hlen, hN]; norm_num
  · intro he
    have := congrArg List.length he
    rw [List.length_take, h1, hlen, hN] at this
    norm_num at this
  · rw [h10]
    intro he
    simp only [Option.some.injEq, TexImage.mk.injEq] at he
    exact Option.noConfusion he.2.2.2

/-- C7 (amended).  From every prior state (a freshly constructed object, or the
state after any run of steps and earlier initialisations, in any GL context),
`init_textures` succeeds and leaves: the seeded four-channel array in `data`;
the first `N = dimXZ*dimY*dimXZ` entries of it (the density block) as the image
of the previous texture; the current texture, a different texture, with an
image of the same `dimXZ x dimY x dimXZ` dimensions allocated without data;
and `swap = false`.  The array, both images and the flag are the same for any
two prior states. -/
theorem init_postcondition (K : ShaderFile → Kernel) (gl0 gl0' : GLState) (ops ops' : List Op) :
    ∃ s s' t t', run K (VoxelTexture.new, gl0) ops = some s ∧
      init_textures s.1 s.2 = some s' ∧
      run K (VoxelTexture.new, gl0') ops' = some t ∧
      init_textures t.1 t.2 = some t' ∧
      SeededOn s'.1.dimXZ s'.1.dimY (fun _ _ _ => True) s'.1.data ∧
      s'.2.textures s'.1.previousTextureID =
        some { width := s'.1.dimXZ, height := s'.1.dimY, depth := s'.1.dimXZ,
               texels := some (s'.1.data.take (cellCount s'.1.dimXZ s'.1.dimY)) } ∧
      s'.2.textures s'.1.currentTextureID =
        some { width := s'.1.dimXZ, height := s'.1.dimY, depth := s'.1.dimXZ, texels := none } ∧
      s'.1.previousTextureID ≠ s'.1.currentTextureID ∧
      s'.1.swap = false ∧
      s'.1.data = t'.1.data ∧
      s'.2.textures s'.1.previousTextureID = t'.2.textures t'.1.previousTextureID ∧
      s'.2.textures s'.1.currentTextureID = t'.2.textures t'.1.currentTextureID ∧
      s'.1.swap = t'.1.swap := by
  obtain ⟨s, hs, hcs⟩ := run_consistent K ops _ (consistent_new gl0)
  obtain ⟨t, ht, hct⟩ := run_consistent K ops' _ (consistent_new gl0')
  obtain ⟨d, s', hseed, hg, hi, h1, h2, h3, h4, -, -, -, -, h9, h10, -, -, h13, -⟩ :=
    init_textures_spec s.1 s.2 hcs
  obtain ⟨e, t', -, hg', hi', k1, k2, k3, k4, -, -, -, -, k9, k10, -⟩ :=
    init_textures_spec t.1 t.2 hct
  have hde : d = e := by
    have := generate_data_data_eq (by rw [hcs.1, hct.1]) (by rw [hcs.2.1, hct.2.1]) hg hg'
    simpa using this
  refine ⟨s, s', t, t', hs, hi, ht, hi', ?_, ?_, ?_, h13, h4, ?_, ?_, ?_, ?_⟩
  · rw [h1, h2, h3]; exact hseed
  · rw [h9, h1, h2, h3]
  · rw [h10, h2, h3]
  · rw [h1, k1, hde]
  · rw [h9, k9, hde]
  · rw [h10, k10]
  · rw [h4, k4]

/-- C9 (single-target frame property).  In every state reached from
`init_textures` by `simulationStep` calls, a further step binds, as texture and as
image, only the previous texture (and 0 to release the bindings); that texture is
the image of all 15 diffusion dispatches and of the advection dispatch; the step
leaves the image of the current texture as it was; and after any number of
steps the image of the current texture is the one it had right after the
initialisation. -/
theorem single_target_frame (K : ShaderFile → Kernel) (gl0 : GLState)
    (pre : List Op) (steps : List (Vec3 × Vec3 × Val)) (a b : Vec3) (dt : Val)
    (p0 img0 : Nat) :
    ∃ s1, run K (VoxelTexture.new, gl0) (pre ++ [Op.init]) = some s1 ∧
      (simulationStep K (simulate K s1 steps).1 a b dt (simulate K s1 steps).2).2.calls =
        (simulate K s1 steps).2.calls ++ stepCalls (simulate K s1 steps).1 dt ∧
      boundTextures (stepCalls (simulate K s1 steps).1 dt) =
        [(simulate K s1 steps).1.previousTextureID,
         (simulate K s1 steps).1.previousTextureID, 0, 0] ∧
      (simulate K s1 steps).1.currentTextureID ∉
        boundTextures (stepCalls (simulate K s1 steps).1 dt) ∧
      events p0 img0 (stepCalls (simulate K s1 steps).1 dt) =
        (List.replicate 15
          [Event.dispatch (simulate K s1 steps).1.diffuseShaderID
             (simulate K s1 steps).1.previousTextureID 16 16 16,
           Event.barrier]).flatten ++
        [Event.dispatch (simulate K s1 steps).1.advectShaderID
           (simulate K s1 steps).1.previousTextureID 16 16 16,
         Event.barrier] ∧
      (∀ t, t ≠ (simulate K s1 steps).1.previousTextureID →
        (simulationStep K (simulate K s1 steps).1 a b dt (simulate K s1 steps).2).2.textures t =
          (simulate K s1 steps).2.textures t) ∧
      (simulationStep K (simulate K s1 steps).1 a b dt (simulate K s1 steps).2).2.textures
          (simulate K s1 steps).1.currentTextureID =
        (simulate K s1 steps).2.textures (simulate K s1 steps).1.currentTextureID ∧
      (simulate K s1 steps).2.textures s1.1.currentTextureID =
        s1.2.textures s1.1.currentTextureID ∧
      (simulate K s1 steps).1.currentTextureID = s1.1.currentTextureID := by
  obtain ⟨s1, h1, hr1⟩ := run_init_ready K gl0 pre
  have hr := simulate_ready K steps s1 hr1
  obtain ⟨ht, ho⟩ := (ready_stepTarget_eq hr)
  have hframe := (simulationStep_frame K (simulate K s1 steps).1 a b dt
    (simulate K s1 steps).2).2.2.2.2
  rw [ht] at hframe
  refine ⟨s1, h1, simulationStep_calls _ _ _ _ _ _, ?_, ?_, ?_, hframe, ?_, ?_, ?_⟩
  · rw [boundTextures_stepCalls, ht]
  · rw [boundTextures_stepCalls, ht]
    have h1 := hr.2.2.2.2.1
    have h2 := hr.2.2.2.1
    simp [Ne.symm h1, h2]
  · rw [events_stepCalls, ht, hr.1.1, hr.1.2.1]
  · exact hframe _ (Ne.symm hr.2.2.2.2.1)
  · exact simulate_other_texture K steps s1 hr1
  · rw [simulate_fst]

/-- C11 (only the density block is uploaded).  From every prior state,
`init_textures` uploads the seeded array as the single-channel image of the
previous texture with `dimXZ x dimY x dimXZ` texels: the image is exactly the
first `N = dimXZ*dimY*dimXZ` entries of the `4*N`-entry array; the texel of every
cell `(i,j,k)` is the density value of that cell; the values 10 and -10 occur in
the array (for instance at cell (40,40,40) of channels 1 and 2) but only at
indices `N .. 4*N-1`, where all entries of the three velocity channels lie, so
none of them is a texel of the uploaded image. -/
theorem upload_is_density_block (K : ShaderFile → Kernel) (gl0 : GLState) (ops : List Op) :
    ∃ (s s' : VoxelTexture × GLState) (t : List Val),
      run K (VoxelTexture.new, gl0) ops = some s ∧
      init_textures s.1 s.2 = some s' ∧
      s'.1.data.length = 4 * cellCount s'.1.dimXZ s'.1.dimY ∧
      s'.2.textures s'.1.previousTextureID =
        some { width := s'.1.dimXZ, height := s'.1.dimY, depth := s'.1.dimXZ,
               texels := some t } ∧
      t = s'.1.data.take (cellCount s'.1.dimXZ s'.1.dimY) ∧
      t.length = cellCount s'.1.dimXZ s'.1.dimY ∧
      (∀ n : Nat, n < cellCount s'.1.dimXZ s'.1.dimY → t[n]? = s'.1.data[n]?) ∧
      (∀ n : Nat, cellCount s'.1.dimXZ s'.1.dimY ≤ n → t[n]? = none) ∧
      (∀ i j k, i < s'.1.dimXZ → j < s'.1.dimY → k < s'.1.dimXZ →
        t[i + j * s'.1.dimXZ + k * s'.1.dimXZ * s'.1.dimY]? = some (seedDensity i j k) ∧
        s'.1.data[i + j * s'.1.dimXZ + k * s'.1.dimXZ * s'.1.dimY]? =
          some (seedDensity i j k)) ∧
      (∀ c i j k, 1 ≤ c → c < 4 → i < s'.1.dimXZ → j < s'.1.dimY → k < s'.1.dimXZ →
        cellCount s'.1.dimXZ s'.1.dimY ≤ flatIndex s'.1.dimXZ s'.1.dimY c i j k ∧
        flatIndex s'.1.dimXZ s'.1.dimY c i j k < 4 * cellCount s'.1.dimXZ s'.1.dimY ∧
        t[flatIndex s'.1.dimXZ s'.1.dimY c i j k]? = none) ∧
      s'.1.data[flatIndex s'.1.dimXZ s'.1.dimY 1 40 40 40]? = some (10 : Val) ∧
      s'.1.data[flatIndex s'.1.dimXZ s'.1.dimY 2 40 40 40]? = some (-10 : Val) ∧
      (∀ n : Nat, s'.1.data[n]? = some (10 : Val) ∨ s'.1.data[n]? = some (-10 : Val) →
        cellCount s'.1.dimXZ s'.1.dimY ≤ n ∧ n < 4 * cellCount s'.1.dimXZ s'.1.dimY) ∧
      (∀ n : Nat, t[n]? ≠ some (10 : Val) ∧ t[n]? ≠ some (-10 : Val)) := by
  obtain ⟨s, hs, hcs⟩ := run_consistent K ops _ (consistent_new gl0)
  obtain ⟨d, s', hseed, -, hi, h1, h2, h3, -, -, -, -, -, h9, -⟩ :=
    init_textures_spec s.1 s.2 hcs
  have hlen : d.length = 4 * cellCount 128 128 := hseed.1
  have hNpos : 0 < cellCount 128 128 := by decide
  have htl : (d.take (cellCount 128 128)).length = cellCount 128 128 := by
    rw [List.length_take, hlen]; omega
  have hdens : ∀ n, n < cellCount 128 128 → d[n]? ≠ some (10 : Val) ∧ d[n]? ≠ some (-10 : Val) := by
    intro n hn
    obtain ⟨i, j, k, -, -, -, -, hv⟩ := seededOn_density_block hseed hn
    rw [hv]
    have := seedDensity_ne_ten i j k
    exact ⟨fun h => this.1 (Option.some.inj h), fun h => this.2 (Option.some.inj h)⟩
  have hcell : ∀ i j k, i < 128 → j < 128 → k < 128 →
      d[i + j * 128 + k * 128 * 128]? = some (seedDensity i j k) ∧
      i + j * 128 + k * 128 * 128 < cellCount 128 128 := by
    intro i j k hi hj hk
    have := hseed.2 i j k 0 hi hj hk (by decide) trivial
    exact ⟨by simpa [flatIndex, seedValue] using this, cell_lt hi hj hk⟩
  refine ⟨s, s', d.take (cellCount 128 128), hs, hi, ?_, ?_, ?_, ?_, ?_, ?_, ?_, ?_, ?_, ?_,
    ?_, ?_⟩
  · rw [h1, h2, h3]; exact hlen
  · rw [h9, h2, h3]
  · rw [h1, h2, h3]
  · rw [h2, h3]; exact htl
  · intro n hn
    rw [h2, h3] at hn
    rw [h1, List.getElem?_take, if_pos hn]
  · intro n hn
    rw [h2, h3] at hn
    rw [List.getElem?_take, if_neg (by omega)]
  · intro i j k hi hj hk
    rw [h2] at hi hk
    rw [h3] at hj
    rw [h1, h2, h3]
    obtain ⟨hv, hlt⟩ := hcell i j k hi hj hk
    exact ⟨by rw [List.getElem?_take, if_pos hlt]; exact hv, hv⟩
  · intro c i j k hc1 hc4 hi hj hk
    rw [h2] at hi hk
    rw [h3] at hj
    rw [h2, h3]
    have hb := flatIndex_block (c := c) hi hj hk
    have hl := flatIndex_lt hi hj hk hc4
    have hge : cellCount 128 128 ≤ flatIndex 128 128 c i j k := by
      have : 1 * cellCount 128 128 ≤ c * cellCount 128 128 := Nat.mul_le_mul_right _ hc1
      omega
    exact ⟨hge, hl, by rw [List.getElem?_take, if_neg (by omega)]⟩
  · rw [h1, h2, h3]
    have := hseed.2 40 40 40 1 (by decide) (by decide) (by decide) (by decide) trivial
    simpa [seedValue, seedVelocity] using this
  · rw [h1, h2, h3]
    have := hseed.2 40 40 40 2 (by decide) (by decide) (by decide) (by decide) trivial
    simpa [seedValue, seedVelocity] using this
  · intro n hn
    rw [h1] at hn
    rw [h2, h3]
    have hlt : n < 4 * cellCount 128 128 := by
      by_contra hc
      rw [List.getElem?_eq_none_iff.mpr (by rw [hlen]; omega)] at hn
      rcases hn with h | h <;> exact absurd h (by simp)
    refine ⟨?_, hlt⟩
    by_contra hc
    have := hdens n (by omega)
    rcases hn with h | h
    · exact this.1 h
    · exact this.2 h
  · intro n
    by_cases hn : n < cellCount 128 128
    · rw [List.getElem?_take, if_pos hn]; exact hdens n hn
    · rw [List.getElem?_take, if_neg hn]; simp

end SmokeSim
